import Mathlib

/-!
# react-redux: the Connect binding of `connectAdvanced.js`

A shallow embedding of `src/components/connectAdvanced.js`: the stateful selector
(`makeSelectorStateful`) and the lifecycle methods of the `Connect` component class;
of the proxy that `wrapMapToPropsFunc` of `src/connect/wrapMapToProps.js` builds; and of
the options object that `connect` of `src/connect/connect.js` hands to `connectAdvanced`.

JavaScript object fields that the code mutates become fields of Lean structures and every
method becomes a function from the old instance to an `Outcome`: the list of calls it made
to its collaborators (the store, the projection, the Subscription, React), the instance as
the method left it, and the raised error or the returned value.
-/

namespace ReactRedux

/-! ## Values, errors and observable calls -/

/-- JavaScript values as far as the component inspects them: `!==` on two values is
inequality of the constructors, objects being compared by reference. -/
inductive Val where
  | undefined
  | null
  | bool (b : Bool)
  | num (n : Int)
  | str (s : String)
  | obj (ref : Nat)
  deriving DecidableEq, Repr

/-- Truthiness of a JavaScript value, as computed by `Boolean(value)`. -/
def Val.truthy : Val → Bool
  | .undefined => false
  | .null => false
  | .bool b => b
  | .num n => decide (n ≠ 0)
  | .str s => decide (s ≠ "")
  | .obj _ => true

/-- What user code (the projection, the selector factory or `store.getState`) throws: any
JavaScript value. An error object is an `obj`; `throw null` or `throw 0` throws a falsy
value. -/
structure Thrown where
  value : Val
  deriving DecidableEq, Repr

/-- Everything a method of the component can raise. -/
inductive Err where
  /-- `invariant(cond, message)` failed. -/
  | invariant (message : String)
  /-- A call of a field that does not hold a function. -/
  | typeError (message : String)
  /-- A value thrown by user code. -/
  | thrown (e : Thrown)
  deriving DecidableEq, Repr

/-- Truthiness of a raised value: the errors made by `invariant` and by the language are
objects; a value thrown by user code is as truthy as that value. -/
def Err.truthy : Err → Bool
  | .invariant _ => true
  | .typeError _ => true
  | .thrown e => e.value.truthy

/-- A redux store, identified by reference. -/
structure Store where
  ref : Nat
  deriving DecidableEq, Repr

/-- The props React hands to the component: the entries under `storeKey` and
`subscriptionKey`, and the remaining own props. -/
structure Props where
  store : Option Store
  storeSubscription : Option Nat
  own : Val
  deriving DecidableEq, Repr

/-- The context React hands to the component (`contextTypes`): the entries under `storeKey`
and `subscriptionKey`. A subscription is named by its reference. -/
structure Context where
  store : Option Store
  storeSubscription : Option Nat
  deriving DecidableEq, Repr

/-- What `selector.run` holds: the function installed by `makeSelectorStateful`, or `noop`
after `componentWillUnmount`. -/
inductive RunImpl where
  | runComponentSelector
  | noop
  deriving DecidableEq, Repr

/-- What `this.notifyNestedSubs` holds once assigned: `notifyNestedSubs` bound to the
Subscription with the given reference, or `noop` after `componentWillUnmount`. -/
inductive NotifyImpl where
  | bound (sub : Nat)
  | noop
  deriving DecidableEq, Repr

/-- What `this.componentDidUpdate` holds when it is defined. -/
inductive DidUpdateImpl where
  | notifyNestedSubsOnComponentDidUpdate
  deriving DecidableEq, Repr

/-- The props object handed to `createElement`: `base` is `selector.props`; when
`addExtraProps` made a shallow copy, `copied` is set and the extra fields are listed. -/
structure ElementProps where
  base : Val
  copied : Bool
  ref : Bool
  renderCount : Option (String × Nat)
  subscription : Option (String × Nat)
  deriving DecidableEq, Repr

/-- The calls a method makes, in order. `selectorRun` and `notifyNestedSubs` record a call
through the instance fields `this.selector.run` and `this.notifyNestedSubs` together with
the function the field held; `callFunction` records a call of the function object with
the given reference, with one argument or with two; the other events are calls to
collaborators. -/
inductive Event where
  | selectorRun (impl : RunImpl) (props : Props)
  | getState (store : Store)
  | sourceSelector (state : Val) (props : Props)
  | selectorFactory (dispatch : Store)
  | newSubscription (ref : Nat) (store : Store) (parentSub : Option Nat)
  | trySubscribe (sub : Nat)
  | tryUnsubscribe (sub : Nat)
  | notifyNestedSubs (impl : NotifyImpl)
  | setState
  | forceUpdate
  | createElement (props : ElementProps)
  | callFunction (fn : Nat) (stateOrDispatch : Val) (ownProps : Option Val)
  | verifyPlainObject (displayName : String) (methodName : String)
  deriving DecidableEq, Repr

/-- The result of running a method on an object with fields `σ`: the calls made, the
object as the method left it (also when it raised), and the raised error or the value. -/
structure Outcome (σ : Type) (α : Type) where
  events : List Event
  state : σ
  result : Except Err α

/-- A method of an object with fields `σ`. -/
def Method (σ : Type) (α : Type) : Type := σ → Outcome σ α

namespace Method

/-- Return normally without any call. -/
def pure {σ α : Type} (a : α) : Method σ α := fun s => ⟨[], s, .ok a⟩

/-- The statement `throw e`. -/
def throw {σ α : Type} (e : Err) : Method σ α := fun s => ⟨[], s, .error e⟩

/-- Record one call to a collaborator. -/
def emit {σ : Type} (ev : Event) : Method σ Unit := fun s => ⟨[ev], s, .ok ()⟩

/-- Read the object. -/
def get {σ : Type} : Method σ σ := fun s => ⟨[], s, .ok s⟩

/-- Assign fields of the object. -/
def modify {σ : Type} (f : σ → σ) : Method σ Unit := fun s => ⟨[], f s, .ok ()⟩

/-- Sequencing: the second part runs only when the first returned normally. -/
def bind {σ α β : Type} (m : Method σ α) (f : α → Method σ β) : Method σ β := fun s =>
  match (m s).result with
  | .ok a => ⟨(m s).events ++ (f a (m s).state).events, (f a (m s).state).state,
      (f a (m s).state).result⟩
  | .error e => ⟨(m s).events, (m s).state, .error e⟩

/-- The statement `try { body } catch (error) { handler(error) }`. -/
def tryCatch {σ α : Type} (body : Method σ α) (handler : Err → Method σ α) : Method σ α :=
  fun s =>
    match (body s).result with
    | .ok a => ⟨(body s).events, (body s).state, .ok a⟩
    | .error e => ⟨(body s).events ++ (handler e (body s).state).events,
        (handler e (body s).state).state, (handler e (body s).state).result⟩

/-- The result of user code, which raises `Thrown` objects. -/
def ofUser {σ α : Type} (r : Except Thrown α) : Method σ α := fun s =>
  match r with
  | .ok a => ⟨[], s, .ok a⟩
  | .error e => ⟨[], s, .error (.thrown e)⟩

instance {σ : Type} : Monad (Method σ) where
  pure := Method.pure
  bind := Method.bind

end Method

/-! ## The stateful selector -/

/-- The projection `sourceSelector(state, props)` returned by the selector factory. -/
abbrev SourceSelector := Val → Props → Except Thrown Val

/-- The state of the world outside the component: what `store.getState()` returns (or
raises) for each store at the moment of the call. -/
abbrev World := Store → Except Thrown Val

/-- The `error` field of a selector: never assigned, `null`, or the caught value. -/
inductive ErrorSlot where
  | undefined
  | null
  | caught (e : Err)
  deriving DecidableEq, Repr

/-- Truthiness of the `error` field, as tested by `if (selector.error)`. -/
def ErrorSlot.truthy : ErrorSlot → Bool
  | .caught e => e.truthy
  | _ => false

/-- Truthiness of the `shouldComponentUpdate` field (`none` is `undefined`). -/
def truthyFlag : Option Bool → Bool
  | some b => b
  | none => false

/-- The `selector` object: the closure variables `sourceSelector` and `store` of
`makeSelectorStateful`, and the mutable fields `run`, `props`, `error` and
`shouldComponentUpdate`. -/
structure Selector where
  sourceSelector : SourceSelector
  store : Store
  run : RunImpl
  props : Val
  error : ErrorSlot
  shouldComponentUpdate : Option Bool

/-- The call `store.getState()`. -/
def getState {σ : Type} (w : World) (store : Store) : Method σ Val := do
  Method.emit (.getState store)
  Method.ofUser (w store)

/-- The call `sourceSelector(state, props)`. -/
def callSourceSelector {σ : Type} (f : SourceSelector) (state : Val) (props : Props) :
    Method σ Val := do
  Method.emit (.sourceSelector state props)
  Method.ofUser (f state props)

/-- The function `runComponentSelector(props)` of lines 15-27, a method of its selector. -/
def runComponentSelector (w : World) (props : Props) : Method Selector Unit :=
  Method.tryCatch
    (do
      let selector ← Method.get
      let state ← getState w selector.store
      let nextProps ← callSourceSelector selector.sourceSelector state props
      if nextProps ≠ selector.props ∨ selector.error.truthy = true then
        Method.modify fun s =>
          { s with shouldComponentUpdate := some true, props := nextProps, error := .null }
      else
        Method.pure ())
    (fun error =>
      Method.modify fun s => { s with shouldComponentUpdate := some true, error := .caught error })

/-- The function `makeSelectorStateful(sourceSelector, store)`: an object with only `run`. -/
def makeSelectorStateful (sourceSelector : SourceSelector) (store : Store) : Selector :=
  { sourceSelector := sourceSelector
    store := store
    run := .runComponentSelector
    props := .undefined
    error := .undefined
    shouldComponentUpdate := none }

/-- The module-level `function noop() {}`. -/
def noop {σ : Type} : Method σ Unit := Method.pure ()

/-- The call `selector.run(props)`, dispatching on the function the field holds. -/
def Selector.callRun (w : World) (props : Props) : Method Selector Unit := do
  let selector ← Method.get
  Method.emit (.selectorRun selector.run props)
  match selector.run with
  | .runComponentSelector => runComponentSelector w props
  | .noop => noop

/-! ## The Connect component -/

/-- The record `selectorFactoryOptions` of `wrapWithConnect`, which also holds the options
of `connectAdvanced` that the methods of `Connect` read. -/
structure Options where
  methodName : String
  renderCountProp : Option String
  shouldHandleStateChanges : Bool
  storeKey : String
  withRef : Bool
  displayName : String
  wrappedComponentName : String
  deriving DecidableEq, Repr

/-- The closure of the class `Connect`: the arguments of `connectAdvanced` and the
hot-reloading `version` taken when it was called. -/
structure Config where
  selectorFactory : Store → Options → Except Thrown SourceSelector
  options : Options
  version : Nat

/-- The constant `subscriptionKey = storeKey + 'Subscription'`. -/
def Config.subscriptionKey (cfg : Config) : String := cfg.options.storeKey ++ "Subscription"

/-- Truthiness of `renderCountProp`: a non-empty string. -/
def Options.renderCountPropName (o : Options) : Option String :=
  match o.renderCountProp with
  | some name => if name = "" then none else some name
  | none => none

/-- Modelled from the spec: the Subscription Node of `utils/Subscription`, which is not among
the sources. It is constructed from the store, the optional parent subscription and the
binding's `onStateChange`, and is not connected until `trySubscribe`. -/
structure Subscription where
  ref : Nat
  store : Store
  parentSub : Option Nat
  connected : Bool
  deriving DecidableEq, Repr

/-- Modelled from the spec: `tryConnect()` of the Subscription Node is idempotent and leaves
the node connected; it reports no failure. -/
def Subscription.trySubscribe {σ : Type} (s : Subscription) : Method σ Subscription := do
  Method.emit (.trySubscribe s.ref)
  Method.pure { s with connected := true }

/-- Modelled from the spec: `tryDisconnect()` of the Subscription Node is idempotent and leaves
the node disconnected; it reports no failure. -/
def Subscription.tryUnsubscribe {σ : Type} (s : Subscription) : Method σ Subscription := do
  Method.emit (.tryUnsubscribe s.ref)
  Method.pure { s with connected := false }

/-- An instance of the class `Connect`: the fields React maintains (`props`, `context`) and
the fields the methods assign. `none` stands for a field that is `undefined` or `null`. -/
structure Connect where
  props : Props
  context : Context
  version : Nat
  renderCount : Nat
  store : Option Store
  propsMode : Bool
  selector : Selector
  subscription : Option Subscription
  notifyNestedSubs : Option NotifyImpl
  componentDidUpdate : Option DidUpdateImpl

/-- A call of a method of `this.selector` from a method of the component. -/
def onSelector {α : Type} (m : Method Selector α) : Method Connect α := fun this =>
  ⟨(m this.selector).events, { this with selector := (m this.selector).state },
    (m this.selector).result⟩

/-- A call of a method on a newly made object `t`, returning the object. -/
def Method.runOn {σ τ α : Type} (m : Method τ α) (t : τ) : Method σ τ := fun s =>
  ⟨(m t).events, s, (m t).result.map fun _ => (m t).state⟩

/-- The call `this.notifyNestedSubs()` through the instance field. -/
def callNotifyNestedSubs : Method Connect Unit := do
  let this ← Method.get
  match this.notifyNestedSubs with
  | some impl => Method.emit (.notifyNestedSubs impl)
  | none => Method.throw (.typeError "this.notifyNestedSubs is not a function")

/-- The message of the store `invariant` in the constructor. -/
def missingStoreMessage (cfg : Config) : String :=
  "Could not find \"" ++ cfg.options.storeKey ++ "\" in either the context or props of \"" ++
    cfg.options.displayName ++ "\". Either wrap the root component in a <Provider>, " ++
    "or explicitly pass \"" ++ cfg.options.storeKey ++ "\" as a prop to \"" ++
    cfg.options.displayName ++ "\"."

/-- The method `initSelector()` as the constructor calls it, with `this.store` and
`this.props` assigned: it returns the value it assigns to `this.selector`. -/
def initSelector (cfg : Config) (w : World) (store : Store) (props : Props) :
    Method Unit Selector := do
  Method.emit (.selectorFactory store)
  let sourceSelector ← Method.ofUser (cfg.selectorFactory store cfg.options)
  Method.runOn (Selector.callRun w props) (makeSelectorStateful sourceSelector store)

/-- The method `initSubscription()` as the constructor calls it: it returns the values it
assigns to `this.subscription` and `this.notifyNestedSubs` (both stay `undefined` when
`shouldHandleStateChanges` is false). `fresh` is the reference of the object that
`new Subscription(...)` allocates. -/
def initSubscription (cfg : Config) (fresh : Nat) (store : Store) (propsMode : Bool)
    (props : Props) (context : Context) :
    Method Unit (Option Subscription × Option NotifyImpl) := do
  if cfg.options.shouldHandleStateChanges = false then
    Method.pure (none, none)
  else
    let parentSub := if propsMode then props.storeSubscription else context.storeSubscription
    Method.emit (.newSubscription fresh store parentSub)
    Method.pure
      (some { ref := fresh, store := store, parentSub := parentSub, connected := false },
        some (.bound fresh))

/-- The `constructor(props, context)` of `Connect`. The instance under construction is
returned when the constructor completes. -/
def Connect.constructor (cfg : Config) (w : World) (fresh : Nat) (props : Props)
    (context : Context) : Method Unit Connect := do
  let store := match props.store with
    | some s => some s
    | none => context.store
  let propsMode := props.store.isSome
  match store with
  | none => Method.throw (.invariant (missingStoreMessage cfg))
  | some theStore =>
    let selector ← initSelector cfg w theStore props
    let (subscription, notifyNestedSubs) ←
      initSubscription cfg fresh theStore propsMode props context
    Method.pure
      { props := props
        context := context
        version := cfg.version
        renderCount := 0
        store := store
        propsMode := propsMode
        selector := selector
        subscription := subscription
        notifyNestedSubs := notifyNestedSubs
        componentDidUpdate := none }

/-- The method `getChildContext()`: the value under `subscriptionKey`. -/
def getChildContext (this : Connect) : Option Nat :=
  let subscription := if this.propsMode then none else this.subscription
  match subscription with
  | some s => some s.ref
  | none => this.context.storeSubscription

/-- The method `componentDidMount()`. -/
def componentDidMount (cfg : Config) (w : World) : Method Connect Unit := do
  if cfg.options.shouldHandleStateChanges = false then
    Method.pure ()
  else
    let this ← Method.get
    match this.subscription with
    | none => Method.throw (.typeError "Cannot read property trySubscribe of null")
    | some sub =>
      let sub ← sub.trySubscribe
      Method.modify fun t => { t with subscription := some sub }
      onSelector (Selector.callRun w this.props)
      let this ← Method.get
      if truthyFlag this.selector.shouldComponentUpdate = true then
        Method.emit .forceUpdate
      else
        Method.pure ()

/-- The method `componentWillReceiveProps(nextProps)`. -/
def componentWillReceiveProps (w : World) (nextProps : Props) : Method Connect Unit :=
  onSelector (Selector.callRun w nextProps)

/-- The method `shouldComponentUpdate()`. -/
def shouldComponentUpdate (this : Connect) : Option Bool :=
  this.selector.shouldComponentUpdate

/-- The method `componentWillUnmount()`. -/
def componentWillUnmount : Method Connect Unit := do
  let this ← Method.get
  match this.subscription with
  | some sub =>
    let _ ← sub.tryUnsubscribe
    Method.pure ()
  | none => Method.pure ()
  Method.modify fun t =>
    { t with
      subscription := none
      notifyNestedSubs := some .noop
      store := none
      selector := { t.selector with run := .noop, shouldComponentUpdate := some false } }

/-- The method `notifyNestedSubsOnComponentDidUpdate()`. -/
def notifyNestedSubsOnComponentDidUpdate : Method Connect Unit := do
  Method.modify fun t => { t with componentDidUpdate := none }
  callNotifyNestedSubs

/-- The method `onStateChange()`. -/
def onStateChange (w : World) : Method Connect Unit := do
  let this ← Method.get
  onSelector (Selector.callRun w this.props)
  let this ← Method.get
  if truthyFlag this.selector.shouldComponentUpdate = false then
    callNotifyNestedSubs
  else
    Method.modify fun t =>
      { t with componentDidUpdate := some .notifyNestedSubsOnComponentDidUpdate }
    Method.emit .setState

/-- The method `addExtraProps(props)`. -/
def addExtraProps (cfg : Config) (props : Val) : Method Connect ElementProps := do
  let this ← Method.get
  if cfg.options.withRef = false ∧ cfg.options.renderCountPropName = none ∧
      ¬ (this.propsMode = true ∧ this.subscription.isSome = true) then
    Method.pure { base := props, copied := false, ref := false, renderCount := none,
                  subscription := none }
  else
    let renderCount ←
      match cfg.options.renderCountPropName with
      | some name => do
        Method.modify fun t => { t with renderCount := t.renderCount + 1 }
        Method.pure (some (name, this.renderCount))
      | none => Method.pure none
    let subscription :=
      match this.propsMode, this.subscription with
      | true, some s => some (cfg.subscriptionKey, s.ref)
      | _, _ => none
    Method.pure { base := props, copied := true, ref := cfg.options.withRef,
                  renderCount := renderCount, subscription := subscription }

/-- The `else` branch of `render()`:
`createElement(WrappedComponent, this.addExtraProps(selector.props))`. -/
def renderElement (cfg : Config) : Method Connect ElementProps := do
  let this ← Method.get
  let props ← addExtraProps cfg this.selector.props
  Method.emit (.createElement props)
  Method.pure props

/-- The method `render()`: it returns the props of the element it creates for the wrapped
component. The test `if (selector.error)` is a test of truthiness. -/
def render (cfg : Config) : Method Connect ElementProps := do
  Method.modify fun t =>
    { t with selector := { t.selector with shouldComponentUpdate := some false } }
  let this ← Method.get
  match this.selector.error with
  | .caught error =>
    if error.truthy = true then
      Method.throw error
    else
      renderElement cfg
  | _ => renderElement cfg

/-- React's render-committed step: it calls the `componentDidUpdate` field of the instance
when the field holds a function. -/
def componentDidUpdate : Method Connect Unit := do
  let this ← Method.get
  match this.componentDidUpdate with
  | some .notifyNestedSubsOnComponentDidUpdate => notifyNestedSubsOnComponentDidUpdate
  | none => Method.pure ()

/-! ## Vocabulary of the properties -/

/-- The value of the expression `sourceSelector(store.getState(), props)` that a run of the
selector evaluates: the output of the projection, or the error raised by `store.getState`
or by the projection. -/
def Selector.evaluate (w : World) (props : Props) (selector : Selector) : Except Thrown Val :=
  match w selector.store with
  | .error e => .error e
  | .ok state => selector.sourceSelector state props

/-- A run on this selector either raises or produces an output that is `!==` the stored
`selector.props`. -/
def Selector.changedOrRaised (w : World) (props : Props) (selector : Selector) : Bool :=
  match selector.evaluate w props with
  | .error _ => true
  | .ok nextProps => decide (nextProps ≠ selector.props)

/-- The selector after a sequence of `selector.run(props)` calls, each in its own world. -/
def Selector.runs (selector : Selector) : List (World × Props) → Selector
  | [] => selector
  | (w, props) :: rest => Selector.runs (Selector.callRun w props selector).state rest

/-- Statements in sequence: each runs when all before it returned normally. -/
def Method.seq {σ : Type} : List (Method σ Unit) → Method σ Unit
  | [] => Method.pure ()
  | m :: rest => Method.bind m fun _ => Method.seq rest

/-- What can reach a binding from outside after it was mounted: an upstream notification
(`onStateChange`), or a call of `selector.run` through `componentWillReceiveProps`. -/
inductive Notification where
  | stateChange (w : World)
  | receiveProps (w : World) (nextProps : Props)

/-- Deliver a notification to the binding. -/
def Notification.deliver : Notification → Method Connect Unit
  | .stateChange w => onStateChange w
  | .receiveProps w nextProps => componentWillReceiveProps w nextProps

/-- Every one of the `onStateChange` calls, made in sequence in the given worlds, ended
with `selector.shouldComponentUpdate` true. -/
def allEndWithUpdate : List World → Connect → Bool
  | [], _ => true
  | w :: rest, this =>
    truthyFlag (onStateChange w this).state.selector.shouldComponentUpdate &&
      allEndWithUpdate rest (onStateChange w this).state

/-- A call of `this.notifyNestedSubs()`. -/
def Event.isNotifyCall : Event → Bool
  | .notifyNestedSubs _ => true
  | _ => false

/-- A call of `notifyNestedSubs` on a Subscription, which notifies the children. -/
def Event.notifiesChildren : Event → Bool
  | .notifyNestedSubs (.bound _) => true
  | _ => false

/-- A call of `this.setState`. -/
def Event.isSetState : Event → Bool
  | .setState => true
  | _ => false

/-- A call of `this.forceUpdate`. -/
def Event.isForceUpdate : Event → Bool
  | .forceUpdate => true
  | _ => false

/-- A call of `this.selector.run`. -/
def Event.isSelectorRun : Event → Bool
  | .selectorRun _ _ => true
  | _ => false

/-- A call of `trySubscribe` on a Subscription. -/
def Event.isTrySubscribe : Event → Bool
  | .trySubscribe _ => true
  | _ => false

/-- A call of a field that holds `noop`. -/
def Event.isNoopCall : Event → Bool
  | .selectorRun .noop _ => true
  | .notifyNestedSubs .noop => true
  | _ => false

/-! ## Concrete instances -/

/-- A projection that returns the store state itself. -/
def identityProjection : SourceSelector := fun state _ => .ok state

/-- A projection that always throws the error object 7. -/
def failingProjection : SourceSelector := fun _ _ => .error ⟨.obj 7⟩

/-- A projection that returns the state object 1 when the store holds it and executes
`throw null` for every other state. -/
def nullThrowingProjection : SourceSelector := fun state _ =>
  if state = .obj 1 then .ok state else .error ⟨.null⟩

/-- A world in which every store holds the state object 1. -/
def worldOne : World := fun _ => .ok (.obj 1)

/-- A world in which every store holds the state object 2. -/
def worldTwo : World := fun _ => .ok (.obj 2)

/-- Props without a store. -/
def plainProps : Props := { store := none, storeSubscription := none, own := .obj 10 }

/-- Props carrying the store 5. -/
def storeProps : Props := { store := some ⟨5⟩, storeSubscription := none, own := .obj 10 }

/-- A context providing the store 0 and the parent subscription 3. -/
def providerContext : Context := { store := some ⟨0⟩, storeSubscription := some 3 }

/-- A context without a store. -/
def emptyContext : Context := { store := none, storeSubscription := none }

/-- The default options of `connectAdvanced`. -/
def defaultOptions : Options :=
  { methodName := "connectAdvanced"
    renderCountProp := none
    shouldHandleStateChanges := true
    storeKey := "store"
    withRef := false
    displayName := "ConnectAdvanced(Component)"
    wrappedComponentName := "Component" }

/-- A component class whose selector factory returns `identityProjection`. -/
def sampleConfig : Config :=
  { selectorFactory := fun _ _ => .ok identityProjection
    options := defaultOptions
    version := 0 }

/-- The instance `sampleConfig` constructs from `plainProps` under `providerContext` when
the store holds the state object 1, its Subscription being the object 4. -/
def sampleConnect : Connect :=
  { props := plainProps
    context := providerContext
    version := 0
    renderCount := 0
    store := some ⟨0⟩
    propsMode := false
    selector :=
      { sourceSelector := identityProjection
        store := ⟨0⟩
        run := .runComponentSelector
        props := .obj 1
        error := .null
        shouldComponentUpdate := some true }
    subscription := some { ref := 4, store := ⟨0⟩, parentSub := some 3, connected := false }
    notifyNestedSubs := some (.bound 4)
    componentDidUpdate := none }

/-- A component class whose selector factory returns `nullThrowingProjection`. -/
def nullThrowingConfig : Config :=
  { selectorFactory := fun _ _ => .ok nullThrowingProjection
    options := defaultOptions
    version := 0 }

/-- The instance `nullThrowingConfig` constructs from `plainProps` under `providerContext`
when the store holds the state object 1, its Subscription being the object 4. -/
def nullThrowingConnect : Connect :=
  { sampleConnect with
    selector := { sampleConnect.selector with sourceSelector := nullThrowingProjection } }

/-! ## The proxy of `wrapMapToProps.js` -/

mutual

/-- A function object passed as `mapToProps` or returned by one: its reference, its
`dependsOnOwnProps` property (`undefined` when it has none), its `length`, and what a call
with `(stateOrDispatch)` or with `(stateOrDispatch, ownProps)` does. -/
inductive MapFn where
  | mk (ref : Nat) (dependsOnOwnProps : Val) (length : Nat)
      (call : Val → Option Val → MapReturn)

/-- What a call of a function object does: it throws, or returns a value that is not a
function, or returns a function. -/
inductive MapReturn where
  | raise (e : Thrown)
  | value (v : Val)
  | function (f : MapFn)

end

/-- The reference of a function object. -/
def MapFn.ref : MapFn → Nat
  | .mk ref _ _ _ => ref

/-- The property `dependsOnOwnProps` of a function object. -/
def MapFn.dependsOnOwnProps : MapFn → Val
  | .mk _ d _ _ => d

/-- The property `length` of a function object. -/
def MapFn.length : MapFn → Nat
  | .mk _ _ n _ => n

/-- The behaviour of a function object when called. -/
def MapFn.call : MapFn → Val → Option Val → MapReturn
  | .mk _ _ _ call => call

/-- A value returned by a call: `typeof value === 'function'` holds for `function`. -/
inductive MapValue where
  | value (v : Val)
  | function (f : MapFn)

/-- The completion of a call as the caller sees it. -/
def MapReturn.toResult : MapReturn → Except Err MapValue
  | .raise e => .error (.thrown e)
  | .value v => .ok (.value v)
  | .function f => .ok (.function f)

/-- A call `f(stateOrDispatch, ownProps)`, or `f(stateOrDispatch)` when `ownProps` is
`none`. -/
def MapFn.invoke {σ : Type} (f : MapFn) (stateOrDispatch : Val) (ownProps : Option Val) :
    Method σ MapValue := do
  Method.emit (.callFunction f.ref stateOrDispatch ownProps)
  fun s => ⟨[], s, (f.call stateOrDispatch ownProps).toResult⟩

/-- The function `getDependsOnOwnProps(mapToProps)`. -/
def getDependsOnOwnProps (mapToProps : MapFn) : Bool :=
  if mapToProps.dependsOnOwnProps ≠ .null ∧ mapToProps.dependsOnOwnProps ≠ .undefined then
    mapToProps.dependsOnOwnProps.truthy
  else
    decide (mapToProps.length ≠ 1)

/-- What the field `proxy.mapToProps` holds: the function `detectFactoryAndVerify`, or a
function object assigned by it. -/
inductive ProxyImpl where
  | detectFactoryAndVerify
  | function (f : MapFn)

/-- The properties of the function object `proxy`. -/
structure Proxy where
  mapToProps : ProxyImpl
  dependsOnOwnProps : Bool

/-- The closure of `mapToPropsProxy` and `detectFactoryAndVerify`: the arguments of
`wrapMapToPropsFunc`, the `displayName` given to `initProxySelector`, and whether
`process.env.NODE_ENV` is `'production'`. -/
structure ProxyClosure where
  mapToProps : MapFn
  methodName : String
  displayName : String
  production : Bool

/-- The proxy as `initProxySelector` returns it: `proxy.dependsOnOwnProps = true` and
`proxy.mapToProps = detectFactoryAndVerify`. -/
def initProxySelector : Proxy :=
  { mapToProps := .detectFactoryAndVerify, dependsOnOwnProps := true }

/-- Modelled from the spec: `utils/verifyPlainObject` is not among the sources and the spec
does not describe it; by the comment above `wrapMapToPropsFunc` it warns the developer, so
the call is recorded and returns normally. -/
def verifyPlainObject {σ : Type} (displayName methodName : String) : Method σ Unit :=
  Method.emit (.verifyPlainObject displayName methodName)

/-- The body of `mapToPropsProxy` when `proxy.mapToProps` holds the function object `f`:
`proxy.dependsOnOwnProps ? f(stateOrDispatch, ownProps) : f(stateOrDispatch)`. -/
def proxyCall (f : MapFn) (stateOrDispatch ownProps : Val) : Method Proxy MapValue := do
  let proxy ← Method.get
  if proxy.dependsOnOwnProps = true then
    f.invoke stateOrDispatch (some ownProps)
  else
    f.invoke stateOrDispatch none

/-- The function `detectFactoryAndVerify(stateOrDispatch, ownProps)`. Each of its calls
`proxy(stateOrDispatch, ownProps)` is made right after a function object was assigned to
`proxy.mapToProps`, so the proxy calls that function object. -/
def detectFactoryAndVerify (c : ProxyClosure) (stateOrDispatch ownProps : Val) :
    Method Proxy MapValue := do
  Method.modify fun p => { p with mapToProps := .function c.mapToProps }
  Method.modify fun p => { p with dependsOnOwnProps := getDependsOnOwnProps c.mapToProps }
  let props ← proxyCall c.mapToProps stateOrDispatch ownProps
  let props ←
    match props with
    | .function f => do
      Method.modify fun p => { p with mapToProps := .function f }
      Method.modify fun p => { p with dependsOnOwnProps := getDependsOnOwnProps f }
      proxyCall f stateOrDispatch ownProps
    | .value v => Method.pure (.value v)
  if c.production = false then
    verifyPlainObject c.displayName c.methodName
  else
    Method.pure ()
  Method.pure props

/-- The function `mapToPropsProxy(stateOrDispatch, ownProps)`, which is `proxy`. -/
def mapToPropsProxy (c : ProxyClosure) (stateOrDispatch ownProps : Val) :
    Method Proxy MapValue := do
  let proxy ← Method.get
  match proxy.mapToProps with
  | .detectFactoryAndVerify =>
    if proxy.dependsOnOwnProps = true then
      detectFactoryAndVerify c stateOrDispatch ownProps
    else
      detectFactoryAndVerify c stateOrDispatch .undefined
  | .function f => proxyCall f stateOrDispatch ownProps

/-- The second argument a caller passes to `f` exactly when `getDependsOnOwnProps(f)` is
true. -/
def ownPropsFor (f : MapFn) (ownProps : Val) : Option Val :=
  if getDependsOnOwnProps f = true then some ownProps else none

/-- A call of a function object. -/
def Event.isFunctionCall : Event → Bool
  | .callFunction _ _ _ => true
  | _ => false

/-- The proxy after a sequence of calls `proxy(stateOrDispatch, ownProps)`. -/
def Proxy.calls (c : ProxyClosure) (proxy : Proxy) : List (Val × Val) → Proxy
  | [] => proxy
  | (stateOrDispatch, ownProps) :: rest =>
    Proxy.calls c (mapToPropsProxy c stateOrDispatch ownProps proxy).state rest

/-- A function object of length 1 that returns the state it is given. -/
def selectState : MapFn := .mk 21 .undefined 1 fun state _ => .value state

/-- A function object of length 2 that returns `selectState` on every call. -/
def selectStateFactory : MapFn := .mk 20 .undefined 2 fun _ _ => .function selectState

/-- The closure of a proxy that wraps `selectStateFactory` for `mapStateToProps`. -/
def factoryClosure : ProxyClosure :=
  { mapToProps := selectStateFactory
    methodName := "mapStateToProps"
    displayName := "Connect(Component)"
    production := false }

/-- The closure of a proxy that wraps `selectState` for `mapStateToProps`. -/
def plainClosure : ProxyClosure :=
  { mapToProps := selectState
    methodName := "mapStateToProps"
    displayName := "Connect(Component)"
    production := false }

/-! ## The facade `connect.js` and the options of `connectAdvanced` -/

/-- An argument of `connect` (`mapStateToProps`, `mapDispatchToProps`, `mergeProps`): a
function object or any other value. -/
inductive JsArg where
  | value (v : Val)
  | function (f : MapFn)

/-- Truthiness of an argument, as computed by `Boolean(arg)`. -/
def JsArg.truthy : JsArg → Bool
  | .value v => v.truthy
  | .function _ => true

/-- What `match(arg, factories, name)` returns: the truthy result of a factory (an `init`
function, named by its reference), or the function that throws the `Invalid value` error
once it is called. -/
inductive InitFn where
  | made (ref : Nat)
  | invalidValue (arg : JsArg) (name : String)

/-- A factory of the lists `mapStateToPropsFactories`, `mapDispatchToPropsFactories` and
`mergePropsFactories`: it returns an `init` function or `undefined`. -/
abbrev Factory := JsArg → Option Nat

/-- The function `match(arg, factories, name)`: the factories are tried from the last to
the first. -/
def matchArg (arg : JsArg) (factories : List Factory) (name : String) : InitFn :=
  match factories.reverse.findSome? fun factory => factory arg with
  | some result => .made result
  | none => .invalidValue arg name

/-- An equality function: `strictEqual` of `connect.js`, `shallowEqual` of the utilities, or
one supplied by the caller. -/
inductive EqualityFn where
  | strictEqual
  | shallowEqual
  | custom (ref : Nat)
  deriving DecidableEq, Repr

/-- The entries `...extraOptions` of the fourth argument of `connect`: every entry other
than `pure` and the four equality functions. `none` means that the argument has no such
entry. -/
structure ExtraOptions where
  getDisplayName : Option (String → String)
  methodName : Option String
  renderCountProp : Option String
  shouldHandleStateChanges : Option Bool
  storeKey : Option String
  withRef : Option Bool
  initMapStateToProps : Option InitFn
  initMapDispatchToProps : Option InitFn
  initMergeProps : Option InitFn

/-- The fourth argument of `connect`, destructured; `none` means that the entry is absent
and the default applies. -/
structure ConnectOptions where
  pure : Option Bool
  areStatesEqual : Option EqualityFn
  areOwnPropsEqual : Option EqualityFn
  areStatePropsEqual : Option EqualityFn
  areMergedPropsEqual : Option EqualityFn
  extraOptions : ExtraOptions

/-- The entries that `connect` passes through `connectAdvanced` to the selector factory
(`...connectOptions`). -/
structure PassedThrough where
  initMapStateToProps : InitFn
  initMapDispatchToProps : InitFn
  initMergeProps : InitFn
  pure : Bool
  areStatesEqual : EqualityFn
  areOwnPropsEqual : EqualityFn
  areStatePropsEqual : EqualityFn
  areMergedPropsEqual : EqualityFn

/-- The options object that `connectAdvanced` receives as its second argument: the entries
it destructures (`none` when absent, so that the default applies) and the remaining
entries `...connectOptions`. -/
structure AdvancedOptions (κ : Type) where
  getDisplayName : Option (String → String)
  methodName : Option String
  renderCountProp : Option String
  shouldHandleStateChanges : Option Bool
  storeKey : Option String
  withRef : Option Bool
  connectOptions : κ

/-- The argument of `createConnect`, destructured, with the result type `ρ` of
`connectHOC`. -/
structure CreateConnect (ρ : Type) where
  connectHOC : (PassedThrough → Store → Options → Except Thrown SourceSelector) →
    AdvancedOptions PassedThrough → ρ
  mapStateToPropsFactories : List Factory
  mapDispatchToPropsFactories : List Factory
  mergePropsFactories : List Factory
  selectorFactory : PassedThrough → Store → Options → Except Thrown SourceSelector

/-- The options object that `connect` hands to `connectHOC` (lines 78-100): the entries
written out, then `...extraOptions`, whose entries replace those written before them. -/
def connectHOCOptions {ρ : Type} (cc : CreateConnect ρ)
    (mapStateToProps mapDispatchToProps mergeProps : JsArg) (options : ConnectOptions) :
    AdvancedOptions PassedThrough :=
  let initMapStateToProps :=
    matchArg mapStateToProps cc.mapStateToPropsFactories "mapStateToProps"
  let initMapDispatchToProps :=
    matchArg mapDispatchToProps cc.mapDispatchToPropsFactories "mapDispatchToProps"
  let initMergeProps := matchArg mergeProps cc.mergePropsFactories "mergeProps"
  let extraOptions := options.extraOptions
  { methodName := some (extraOptions.methodName.getD "connect")
    getDisplayName :=
      some (extraOptions.getDisplayName.getD fun name => "Connect(" ++ name ++ ")")
    shouldHandleStateChanges :=
      some (extraOptions.shouldHandleStateChanges.getD mapStateToProps.truthy)
    renderCountProp := extraOptions.renderCountProp
    storeKey := extraOptions.storeKey
    withRef := extraOptions.withRef
    connectOptions :=
      { initMapStateToProps := extraOptions.initMapStateToProps.getD initMapStateToProps
        initMapDispatchToProps :=
          extraOptions.initMapDispatchToProps.getD initMapDispatchToProps
        initMergeProps := extraOptions.initMergeProps.getD initMergeProps
        pure := options.pure.getD true
        areStatesEqual := options.areStatesEqual.getD .strictEqual
        areOwnPropsEqual := options.areOwnPropsEqual.getD .shallowEqual
        areStatePropsEqual := options.areStatePropsEqual.getD .shallowEqual
        areMergedPropsEqual := options.areMergedPropsEqual.getD .shallowEqual } }

/-- The function `connect(mapStateToProps, mapDispatchToProps, mergeProps, options)`
returned by `createConnect`. -/
def connect {ρ : Type} (cc : CreateConnect ρ)
    (mapStateToProps mapDispatchToProps mergeProps : JsArg) (options : ConnectOptions) : ρ :=
  cc.connectHOC cc.selectorFactory
    (connectHOCOptions cc mapStateToProps mapDispatchToProps mergeProps options)

/-- The argument of `wrapWithConnect`: a value that is not a function (given by its
`JSON.stringify` text), or a component with its `displayName` and `name`. -/
inductive ComponentArg where
  | notAFunction (json : String)
  | component (displayName : Option String) (name : String)

/-- The expression `WrappedComponent.displayName || WrappedComponent.name || 'Component'`. -/
def wrappedComponentName (displayName : Option String) (name : String) : String :=
  match displayName with
  | some d => if d ≠ "" then d else if name ≠ "" then name else "Component"
  | none => if name ≠ "" then name else "Component"

/-- The function `connectAdvanced(selectorFactory, options)` applied to a component: the
closure of the class `Connect` that `wrapWithConnect` returns. `version` is the value of
`hotReloadingVersion` at the call. -/
def connectAdvanced {κ : Type}
    (selectorFactory : κ → Store → Options → Except Thrown SourceSelector)
    (options : AdvancedOptions κ) (version : Nat) (WrappedComponent : ComponentArg) :
    Except Err Config :=
  match WrappedComponent with
  | .notAFunction json =>
    .error (.invariant
      ("You must pass a component to the function returned by connect. Instead received " ++
        json))
  | .component displayName name =>
    let getDisplayName :=
      options.getDisplayName.getD fun name => "ConnectAdvanced(" ++ name ++ ")"
    .ok
      { selectorFactory := selectorFactory options.connectOptions
        options :=
          { methodName := options.methodName.getD "connectAdvanced"
            renderCountProp := options.renderCountProp
            shouldHandleStateChanges := options.shouldHandleStateChanges.getD true
            storeKey := options.storeKey.getD "store"
            withRef := options.withRef.getD false
            displayName := getDisplayName (wrappedComponentName displayName name)
            wrappedComponentName := wrappedComponentName displayName name }
        version := version }

/-- A step in the life of a mounted or unmounted instance: a lifecycle method called by
React, or a notification. -/
inductive Lifecycle where
  | didMount (w : World)
  | notified (n : Notification)
  | rendered
  | committed
  | willUnmount

/-- The method that a step calls. -/
def Lifecycle.step (cfg : Config) : Lifecycle → Method Connect Unit
  | .didMount w => componentDidMount cfg w
  | .notified n => n.deliver
  | .rendered => do
    let _ ← render cfg
    Method.pure ()
  | .committed => componentDidUpdate
  | .willUnmount => componentWillUnmount

/-- The calls made by a sequence of steps, each step acting on the instance as the step
before left it, whether or not that step raised. -/
def lifecycleEvents (cfg : Config) : List Lifecycle → Connect → List Event
  | [], _ => []
  | l :: rest, this =>
    (l.step cfg this).events ++ lifecycleEvents cfg rest (l.step cfg this).state

/-- A call of `new Subscription(...)`. -/
def Event.isNewSubscription : Event → Bool
  | .newSubscription _ _ _ => true
  | _ => false

/-- The argument of `createConnect` with `connectAdvanced` as `connectHOC`, taken at
hot-reloading version 0, a factory for a missing `mapStateToProps` and a selector factory
that returns `identityProjection`. -/
def sampleCreateConnect : CreateConnect (ComponentArg → Except Err Config) :=
  { connectHOC := fun selectorFactory options => connectAdvanced selectorFactory options 0
    mapStateToPropsFactories := [fun arg => if arg.truthy = true then none else some 30]
    mapDispatchToPropsFactories := [fun arg => if arg.truthy = true then none else some 31]
    mergePropsFactories := [fun arg => if arg.truthy = true then none else some 32]
    selectorFactory := fun _ _ _ => .ok identityProjection }

/-- A fourth argument of `connect` with no entry at all. -/
def noConnectOptions : ConnectOptions :=
  { pure := none
    areStatesEqual := none
    areOwnPropsEqual := none
    areStatePropsEqual := none
    areMergedPropsEqual := none
    extraOptions :=
      { getDisplayName := none
        methodName := none
        renderCountProp := none
        shouldHandleStateChanges := none
        storeKey := none
        withRef := none
        initMapStateToProps := none
        initMapDispatchToProps := none
        initMergeProps := none } }

/-- The fourth argument `{ shouldHandleStateChanges: true }` of `connect`. -/
def forceStateChanges : ConnectOptions :=
  { noConnectOptions with
    extraOptions := { noConnectOptions.extraOptions with shouldHandleStateChanges := some true } }

/-- A component named `Component`. -/
def sampleComponent : ComponentArg := .component none "Component"

/-! ## Evaluation lemmas -/

@[simp] theorem Method.bind_eq {σ α β : Type} (m : Method σ α) (f : α → Method σ β) :
    (m >>= f) = Method.bind m f := rfl

@[simp] theorem Method.pure_eq {σ α : Type} (a : α) :
    (Pure.pure a : Method σ α) = Method.pure a := rfl

/-- The outcome of `runComponentSelector`, by cases on what `store.getState()` and the
projection do. -/
theorem runComponentSelector_eq (w : World) (props : Props) (sel : Selector) :
    runComponentSelector w props sel =
      match w sel.store with
      | .error e =>
        ⟨[.getState sel.store],
          { sel with shouldComponentUpdate := some true, error := .caught (.thrown e) }, .ok ()⟩
      | .ok st =>
        match sel.sourceSelector st props with
        | .error e =>
          ⟨[.getState sel.store, .sourceSelector st props],
            { sel with shouldComponentUpdate := some true, error := .caught (.thrown e) },
            .ok ()⟩
        | .ok v =>
          ⟨[.getState sel.store, .sourceSelector st props],
            if v ≠ sel.props ∨ sel.error.truthy = true then
              { sel with shouldComponentUpdate := some true, props := v, error := .null }
            else sel,
            .ok ()⟩ := by
  simp only [runComponentSelector, Method.tryCatch, Method.bind_eq, Method.bind, Method.get,
    getState, callSourceSelector, Method.emit, Method.ofUser, Method.modify, Method.pure]
  cases hw : w sel.store with
  | error e => simp
  | ok st =>
    cases hs : sel.sourceSelector st props with
    | error e => simp [hs]
    | ok v =>
      by_cases hc : v ≠ sel.props ∨ sel.error.truthy = true
      · simp [hs, hc, Method.modify]
      · simp [hs, hc, Method.pure]

/-- The state in which `runComponentSelector` leaves the selector. -/
theorem runComponentSelector_state (w : World) (props : Props) (sel : Selector) :
    (runComponentSelector w props sel).state =
      match sel.evaluate w props with
      | .error e =>
        { sel with shouldComponentUpdate := some true, error := .caught (.thrown e) }
      | .ok v =>
        if v ≠ sel.props ∨ sel.error.truthy = true then
          { sel with shouldComponentUpdate := some true, props := v, error := .null }
        else sel := by
  rw [runComponentSelector_eq]
  unfold Selector.evaluate
  cases hw : w sel.store with
  | error e => simp
  | ok st =>
    cases hs : sel.sourceSelector st props with
    | error e => simp [hs]
    | ok v => simp [hs]

/-- The function `runComponentSelector` returns normally. -/
theorem runComponentSelector_result (w : World) (props : Props) (sel : Selector) :
    (runComponentSelector w props sel).result = .ok () := by
  rw [runComponentSelector_eq]
  cases hw : w sel.store with
  | error e => simp
  | ok st =>
    cases hs : sel.sourceSelector st props with
    | error e => simp [hs]
    | ok v => simp [hs]

/-- The outcome of the call `selector.run(props)`, by cases on the function in the field. -/
theorem callRun_eq (w : World) (props : Props) (sel : Selector) :
    Selector.callRun w props sel =
      match sel.run with
      | .noop => ⟨[.selectorRun .noop props], sel, .ok ()⟩
      | .runComponentSelector =>
        ⟨.selectorRun .runComponentSelector props :: (runComponentSelector w props sel).events,
          (runComponentSelector w props sel).state, .ok ()⟩ := by
  have h := runComponentSelector_result w props sel
  simp only [Selector.callRun, Method.bind_eq, Method.bind, Method.get, Method.emit]
  cases hr : sel.run with
  | noop => simp [noop, Method.pure]
  | runComponentSelector => simp [h]

/-- The state in which the call `selector.run(props)` leaves the selector. -/
theorem callRun_state (w : World) (props : Props) (sel : Selector) :
    (Selector.callRun w props sel).state =
      match sel.run with
      | .noop => sel
      | .runComponentSelector => (runComponentSelector w props sel).state := by
  rw [callRun_eq]
  cases sel.run <;> rfl

/-- The call `selector.run(props)` returns normally. -/
theorem callRun_result (w : World) (props : Props) (sel : Selector) :
    (Selector.callRun w props sel).result = .ok () := by
  rw [callRun_eq]
  cases sel.run <;> rfl

/-- Along a sequence of runs of a selector that still holds `runComponentSelector`, the
field `run` is not reassigned, and a stored error keeps `shouldComponentUpdate` true. -/
theorem runs_invariant (history : List (World × Props)) :
    ∀ sel : Selector, sel.run = .runComponentSelector →
      (sel.error.truthy = true → sel.shouldComponentUpdate = some true) →
      (sel.runs history).run = .runComponentSelector ∧
        ((sel.runs history).error.truthy = true →
          (sel.runs history).shouldComponentUpdate = some true) := by
  induction history with
  | nil => intro sel h1 h2; exact ⟨h1, h2⟩
  | cons step rest ih =>
    intro sel h1 h2
    obtain ⟨w, props⟩ := step
    simp only [Selector.runs]
    apply ih
    · rw [callRun_state, h1]
      simp only [runComponentSelector_state]
      cases sel.evaluate w props with
      | error e => exact h1
      | ok v => dsimp only; split <;> exact h1
    · rw [callRun_state, h1]
      simp only [runComponentSelector_state]
      cases sel.evaluate w props with
      | error e => intro _; rfl
      | ok v =>
        dsimp only
        split
        · intro _; rfl
        · exact h2

/-! ## The stateful selector: claims C3, C4, C9 -/

/-- C3 as stated fails: after two runs of a selector whose projection returns the same
state object both times, `shouldComponentUpdate` is true although the most recent run
neither raised nor produced an output that differs from the stored one. -/
theorem shouldComponentUpdate_not_only_most_recent_run :
    ¬ ((Selector.callRun worldOne plainProps
          ((makeSelectorStateful identityProjection ⟨0⟩).runs
            [(worldOne, plainProps)])).state.shouldComponentUpdate = some true ↔
        Selector.changedOrRaised worldOne plainProps
          ((makeSelectorStateful identityProjection ⟨0⟩).runs [(worldOne, plainProps)]) =
            true) := by
  decide

/-- C3 (amended): for a selector built by `makeSelectorStateful` and any sequence of runs,
after a further run `shouldComponentUpdate` is true if and only if it was already true
before that run, or that run raised or produced an output that is not reference-equal to
the stored output. -/
theorem shouldComponentUpdate_after_run (sourceSelector : SourceSelector) (store : Store)
    (history : List (World × Props)) (w : World) (props : Props) :
    (Selector.callRun w props
        ((makeSelectorStateful sourceSelector store).runs history)).state.shouldComponentUpdate
        = some true ↔
      (((makeSelectorStateful sourceSelector store).runs history).shouldComponentUpdate
          = some true ∨
        Selector.changedOrRaised w props
          ((makeSelectorStateful sourceSelector store).runs history) = true) := by
  obtain ⟨h1, h2⟩ := runs_invariant history (makeSelectorStateful sourceSelector store) rfl
    (by intro h; simp [makeSelectorStateful, ErrorSlot.truthy] at h)
  generalize (makeSelectorStateful sourceSelector store).runs history = sel at h1 h2
  rw [callRun_state, h1]
  simp only [runComponentSelector_state, Selector.changedOrRaised]
  cases sel.evaluate w props with
  | error e => simp
  | ok v =>
    dsimp only
    by_cases hv : v = sel.props
    · by_cases he : sel.error.truthy = true
      · simp [hv, he, h2 he]
      · simp [hv, he]
    · simp [hv]

/-- C4: `runComponentSelector`, and every call of `selector.run`, returns normally; when
`store.getState` or the projection raises `e`, the run leaves `selector.error` equal to
`e`, `selector.shouldComponentUpdate` true and `selector.props` as it was. -/
theorem run_captures_error (w : World) (props : Props) (sel : Selector) :
    (runComponentSelector w props sel).result = .ok () ∧
      (Selector.callRun w props sel).result = .ok () ∧
      ∀ e : Thrown, sel.evaluate w props = .error e →
        (runComponentSelector w props sel).state.error = .caught (.thrown e) ∧
          (runComponentSelector w props sel).state.shouldComponentUpdate = some true ∧
          (runComponentSelector w props sel).state.props = sel.props := by
  refine ⟨runComponentSelector_result w props sel, callRun_result w props sel, ?_⟩
  intro e he
  rw [runComponentSelector_state, he]
  exact ⟨rfl, rfl, rfl⟩

/-- Witness of C4: a projection that throws the error object 7. -/
theorem run_captures_error_witness :
    (runComponentSelector worldOne plainProps
        (makeSelectorStateful failingProjection ⟨0⟩)).state.error = .caught (.thrown ⟨.obj 7⟩) ∧
      (runComponentSelector worldOne plainProps
        (makeSelectorStateful failingProjection ⟨0⟩)).state.shouldComponentUpdate = some true ∧
      (runComponentSelector worldOne plainProps
        (makeSelectorStateful failingProjection ⟨0⟩)).state.props = .undefined :=
  (run_captures_error worldOne plainProps (makeSelectorStateful failingProjection ⟨0⟩)).2.2
    ⟨.obj 7⟩ rfl

/-- C9: running the selector a second time in the same world (same store state, same
projection results) with the same props leaves the selector exactly as the first run left
it. -/
theorem run_idempotent (w : World) (props : Props) (sel : Selector) :
    (Selector.callRun w props (Selector.callRun w props sel).state).state =
      (Selector.callRun w props sel).state := by
  rw [callRun_state w props sel]
  cases hr : sel.run with
  | noop => simp [callRun_state, hr]
  | runComponentSelector =>
    dsimp only
    have hrun : (runComponentSelector w props sel).state.run = .runComponentSelector := by
      rw [runComponentSelector_state]
      cases sel.evaluate w props with
      | error e => exact hr
      | ok v => dsimp only; split <;> exact hr
    rw [callRun_state, hrun]
    dsimp only
    rw [runComponentSelector_state w props sel]
    cases he : sel.evaluate w props with
    | error e =>
      dsimp only
      rw [runComponentSelector_state]
      simp only [Selector.evaluate] at he ⊢
      rw [he]
    | ok v =>
      dsimp only
      by_cases hc : v ≠ sel.props ∨ sel.error.truthy = true
      · rw [if_pos hc, runComponentSelector_state]
        simp only [Selector.evaluate] at he ⊢
        rw [he]
        simp [ErrorSlot.truthy]
      · rw [if_neg hc, runComponentSelector_state, he]
        simp [hc]

/-! ## Notifications: claims C1, C2 -/

/-- The outcome of `this.selector.run(props)` called from a method of the component. -/
theorem onSelector_callRun (w : World) (props : Props) (this : Connect) :
    onSelector (Selector.callRun w props) this =
      ⟨(Selector.callRun w props this.selector).events,
        { this with selector := (Selector.callRun w props this.selector).state }, .ok ()⟩ := by
  simp [onSelector, callRun_result]

/-- The calls made by `selector.run(props)`: the call itself comes first, and none of them
is a call of `notifyNestedSubs`, `setState`, `forceUpdate` or `trySubscribe`. -/
theorem callRun_events (w : World) (props : Props) (sel : Selector) :
    (∃ rest, (Selector.callRun w props sel).events = .selectorRun sel.run props :: rest ∧
        rest.countP Event.isSelectorRun = 0) ∧
      (Selector.callRun w props sel).events.countP Event.isNotifyCall = 0 ∧
      (Selector.callRun w props sel).events.countP Event.isSetState = 0 ∧
      (Selector.callRun w props sel).events.countP Event.isForceUpdate = 0 ∧
      (Selector.callRun w props sel).events.countP Event.isTrySubscribe = 0 := by
  rw [callRun_eq, runComponentSelector_eq]
  cases hr : sel.run with
  | noop => simp [Event.isSelectorRun, Event.isNotifyCall, Event.isSetState,
      Event.isForceUpdate, Event.isTrySubscribe]
  | runComponentSelector =>
    cases hw : w sel.store with
    | error e => simp [Event.isSelectorRun, Event.isNotifyCall, Event.isSetState,
        Event.isForceUpdate, Event.isTrySubscribe]
    | ok st =>
      cases hs : sel.sourceSelector st props <;>
        simp [hs, Event.isSelectorRun, Event.isNotifyCall, Event.isSetState,
          Event.isForceUpdate, Event.isTrySubscribe]

/-- The outcome of `onStateChange` on a binding whose `notifyNestedSubs` field holds a
function. -/
theorem onStateChange_eq (w : World) (this : Connect) (impl : NotifyImpl)
    (h : this.notifyNestedSubs = some impl) :
    onStateChange w this =
      if truthyFlag (Selector.callRun w this.props this.selector).state.shouldComponentUpdate
          = false then
        ⟨(Selector.callRun w this.props this.selector).events ++ [.notifyNestedSubs impl],
          { this with selector := (Selector.callRun w this.props this.selector).state },
          .ok ()⟩
      else
        ⟨(Selector.callRun w this.props this.selector).events ++ [.setState],
          { this with
            selector := (Selector.callRun w this.props this.selector).state
            componentDidUpdate := some .notifyNestedSubsOnComponentDidUpdate },
          .ok ()⟩ := by
  simp only [onStateChange, Method.bind_eq, Method.bind, Method.get, onSelector_callRun]
  by_cases hc :
      truthyFlag (Selector.callRun w this.props this.selector).state.shouldComponentUpdate = false
  · simp [hc, callNotifyNestedSubs, Method.bind, Method.get, h, Method.emit]
  · simp [hc, Method.bind, Method.modify, Method.emit]

/-- C1: on an upstream notification `onStateChange` first calls `selector.run` with the
current props and returns normally; when `shouldComponentUpdate` is false after the run it
then calls `notifyNestedSubs` exactly once, calls no `setState` and assigns no field other
than the selector; when it is true it calls `setState` exactly once, assigns the deferred
notifier to `componentDidUpdate` and makes no call of `notifyNestedSubs`. The binding has a
Subscription to be notified through, so its `notifyNestedSubs` field holds a function. -/
theorem onStateChange_notifies_or_requests_render (w : World) (this : Connect)
    (h : this.notifyNestedSubs ≠ none) :
    (onStateChange w this).result = .ok () ∧
      (onStateChange w this).state.selector =
        (Selector.callRun w this.props this.selector).state ∧
      (∃ rest, (onStateChange w this).events =
          .selectorRun this.selector.run this.props :: rest ∧
        rest.countP Event.isSelectorRun = 0) ∧
      (truthyFlag (onStateChange w this).state.selector.shouldComponentUpdate = false →
        (onStateChange w this).events.countP Event.isNotifyCall = 1 ∧
          (onStateChange w this).events.countP Event.isSetState = 0 ∧
          (onStateChange w this).state =
            { this with selector := (Selector.callRun w this.props this.selector).state }) ∧
      (truthyFlag (onStateChange w this).state.selector.shouldComponentUpdate = true →
        (onStateChange w this).events.countP Event.isSetState = 1 ∧
          (onStateChange w this).events.countP Event.isNotifyCall = 0 ∧
          (onStateChange w this).state =
            { this with
              selector := (Selector.callRun w this.props this.selector).state
              componentDidUpdate := some .notifyNestedSubsOnComponentDidUpdate }) := by
  obtain ⟨impl, himpl⟩ := Option.ne_none_iff_exists'.mp h
  obtain ⟨⟨rest, hrest, hcount⟩, hn, hs, _, _⟩ := callRun_events w this.props this.selector
  rw [onStateChange_eq w this impl himpl]
  by_cases hc :
      truthyFlag (Selector.callRun w this.props this.selector).state.shouldComponentUpdate = false
  · rw [if_pos hc]
    refine ⟨rfl, rfl, ⟨rest ++ [.notifyNestedSubs impl], ?_, ?_⟩, ?_, ?_⟩
    · simp [hrest]
    · simp [List.countP_append, hcount, Event.isSelectorRun]
    · intro _
      simp [List.countP_append, hn, hs, Event.isNotifyCall, Event.isSetState]
    · intro habs
      have h2 : truthyFlag
          (Selector.callRun w this.props this.selector).state.shouldComponentUpdate = true := habs
      rw [hc] at h2
      exact absurd h2 (by decide)
  · rw [if_neg hc]
    refine ⟨rfl, rfl, ⟨rest ++ [.setState], ?_, ?_⟩, ?_, ?_⟩
    · simp [hrest]
    · simp [List.countP_append, hcount, Event.isSelectorRun]
    · intro habs
      exact absurd habs hc
    · intro _
      simp [List.countP_append, hn, hs, Event.isNotifyCall, Event.isSetState]

/-- Witness of C1: the sample binding, notified while the store still holds the state it
was constructed with, requests a render. -/
theorem onStateChange_notifies_or_requests_render_witness :
    sampleConnect.notifyNestedSubs ≠ none ∧
      (onStateChange worldOne sampleConnect).result = .ok () ∧
      (onStateChange worldOne sampleConnect).events.countP Event.isSetState = 1 :=
  ⟨by decide,
    (onStateChange_notifies_or_requests_render worldOne sampleConnect (by decide)).1,
    ((onStateChange_notifies_or_requests_render worldOne sampleConnect (by decide)).2.2.2.2
      (by decide)).1⟩

/-- A sequence of `onStateChange` calls that each end with `shouldComponentUpdate` true
returns normally, keeps the `notifyNestedSubs` field, and leaves the deferred notifier in
`componentDidUpdate` unless the sequence is empty. -/
theorem stateChanges_leave_deferred (ws : List World) :
    ∀ this : Connect, allEndWithUpdate ws this = true → this.notifyNestedSubs ≠ none →
      (Method.seq (ws.map onStateChange) this).result = .ok () ∧
        (Method.seq (ws.map onStateChange) this).state.notifyNestedSubs =
          this.notifyNestedSubs ∧
        (ws ≠ [] → (Method.seq (ws.map onStateChange) this).state.componentDidUpdate =
          some .notifyNestedSubsOnComponentDidUpdate) := by
  induction ws with
  | nil =>
    intro this _ _
    exact ⟨rfl, rfl, fun h => absurd rfl h⟩
  | cons w rest ih =>
    intro this hall hn
    obtain ⟨impl, himpl⟩ := Option.ne_none_iff_exists'.mp hn
    simp only [allEndWithUpdate, Bool.and_eq_true] at hall
    obtain ⟨hflag, hrest⟩ := hall
    have hne : ¬ truthyFlag
        (Selector.callRun w this.props this.selector).state.shouldComponentUpdate = false := by
      rw [onStateChange_eq w this impl himpl] at hflag
      intro hc
      rw [if_pos hc] at hflag
      have h2 : truthyFlag
          (Selector.callRun w this.props this.selector).state.shouldComponentUpdate = true :=
        hflag
      rw [hc] at h2
      exact absurd h2 (by decide)
    have hstep : onStateChange w this =
        ⟨(Selector.callRun w this.props this.selector).events ++ [.setState],
          { this with
            selector := (Selector.callRun w this.props this.selector).state
            componentDidUpdate := some .notifyNestedSubsOnComponentDidUpdate },
          .ok ()⟩ := by
      rw [onStateChange_eq w this impl himpl, if_neg hne]
    rw [hstep] at hrest
    obtain ⟨ih1, ih2, ih3⟩ := ih _ hrest (by simpa using hn)
    simp only [List.map_cons, Method.seq, Method.bind, hstep]
    refine ⟨ih1, ih2, fun _ => ?_⟩
    by_cases hr : rest = []
    · subst hr
      rfl
    · exact ih3 hr

/-- The outcome of the render-committed step. -/
theorem componentDidUpdate_eq (this : Connect) (impl : NotifyImpl)
    (h : this.notifyNestedSubs = some impl) :
    componentDidUpdate this =
      match this.componentDidUpdate with
      | some .notifyNestedSubsOnComponentDidUpdate =>
        ⟨[.notifyNestedSubs impl], { this with componentDidUpdate := none }, .ok ()⟩
      | none => ⟨[], this, .ok ()⟩ := by
  simp only [componentDidUpdate, Method.bind_eq, Method.bind, Method.get]
  cases hd : this.componentDidUpdate with
  | none => simp [Method.pure]
  | some d =>
    cases d
    simp [notifyNestedSubsOnComponentDidUpdate, Method.bind, Method.modify,
      callNotifyNestedSubs, Method.get, h, Method.emit]

/-- The method `addExtraProps` makes no call, returns normally, passes the given object on
(as it is or copied) and assigns no field other than `renderCount`. -/
theorem addExtraProps_eq (cfg : Config) (props : Val) (this : Connect) :
    ∃ (ep : ElementProps) (n : Nat),
      addExtraProps cfg props this = ⟨[], { this with renderCount := n }, .ok ep⟩ ∧
        ep.base = props := by
  simp only [addExtraProps, Method.bind_eq, Method.bind, Method.get, Method.pure_eq]
  by_cases hc : cfg.options.withRef = false ∧ cfg.options.renderCountPropName = none ∧
      ¬ (this.propsMode = true ∧ this.subscription.isSome = true)
  · rw [if_pos hc]
    exact ⟨_, this.renderCount, rfl, rfl⟩
  · rw [if_neg hc]
    cases hn : cfg.options.renderCountPropName with
    | none => exact ⟨_, this.renderCount, rfl, rfl⟩
    | some name => exact ⟨_, this.renderCount + 1, rfl, rfl⟩

/-- The outcome of the `else` branch of `render`: one element is created from
`selector.props`. -/
theorem renderElement_eq (cfg : Config) (this : Connect) :
    ∃ (ep : ElementProps) (n : Nat),
      renderElement cfg this =
        ⟨[.createElement ep], { this with renderCount := n }, .ok ep⟩ ∧
        ep.base = this.selector.props := by
  obtain ⟨ep, n, hep, hbase⟩ := addExtraProps_eq cfg this.selector.props this
  refine ⟨ep, n, ?_, hbase⟩
  simp [renderElement, Method.bind, Method.get, hep, Method.emit, Method.pure]

/-- The outcome of `render` when `selector.error` holds a truthy value: the value is
thrown, after `shouldComponentUpdate` was reset. -/
theorem render_of_error (cfg : Config) (this : Connect) (e : Err)
    (h : this.selector.error = .caught e) (ht : e.truthy = true) :
    render cfg this =
      ⟨[], { this with selector := { this.selector with shouldComponentUpdate := some false } },
        .error e⟩ := by
  simp [render, Method.bind, Method.modify, Method.get, h, ht, Method.throw]

/-- The outcome of `render` when `selector.error` is falsy: one element is created from
`selector.props`. -/
theorem render_of_no_error (cfg : Config) (this : Connect)
    (h : this.selector.error.truthy = false) :
    ∃ (ep : ElementProps) (n : Nat),
      render cfg this =
        ⟨[.createElement ep],
          { this with
            selector := { this.selector with shouldComponentUpdate := some false }
            renderCount := n },
          .ok ep⟩ ∧
        ep.base = this.selector.props := by
  obtain ⟨ep, n, hep, hbase⟩ := renderElement_eq cfg
    { this with selector := { this.selector with shouldComponentUpdate := some false } }
  refine ⟨ep, n, ?_, hbase⟩
  have hbranch : render cfg this = renderElement cfg
      { this with selector := { this.selector with shouldComponentUpdate := some false } } := by
    cases he : this.selector.error with
    | caught e =>
      have hf : e.truthy = false := by
        rw [he] at h; exact h
      simp [render, Method.bind, Method.modify, Method.get, he, hf]
    | undefined => simp [render, Method.bind, Method.modify, Method.get, he]
    | null => simp [render, Method.bind, Method.modify, Method.get, he]
  rw [hbranch, hep]

/-- The two outcomes of `render`: a truthy `selector.error` is thrown and no element is
created; otherwise one element is created from `selector.props`. -/
theorem render_outcome (cfg : Config) (this : Connect) :
    (∃ e : Err, this.selector.error = .caught e ∧ e.truthy = true ∧
        render cfg this =
          ⟨[],
            { this with selector := { this.selector with shouldComponentUpdate := some false } },
            .error e⟩) ∨
      (this.selector.error.truthy = false ∧
        ∃ (ep : ElementProps) (n : Nat),
          render cfg this =
            ⟨[.createElement ep],
              { this with
                selector := { this.selector with shouldComponentUpdate := some false }
                renderCount := n },
              .ok ep⟩ ∧
            ep.base = this.selector.props) := by
  cases ht : this.selector.error.truthy with
  | false => exact Or.inr ⟨rfl, render_of_no_error cfg this ht⟩
  | true =>
    cases he : this.selector.error with
    | caught e =>
      have hte : e.truthy = true := by
        rw [he] at ht; exact ht
      exact Or.inl ⟨e, rfl, hte, render_of_error cfg this e he hte⟩
    | undefined => rw [he] at ht; exact absurd ht (by decide)
    | null => rw [he] at ht; exact absurd ht (by decide)

/-- The method `render` assigns neither `notifyNestedSubs` nor `componentDidUpdate`. -/
theorem render_keeps_notifier (cfg : Config) (this : Connect) :
    (render cfg this).state.notifyNestedSubs = this.notifyNestedSubs ∧
      (render cfg this).state.componentDidUpdate = this.componentDidUpdate := by
  rcases render_outcome cfg this with ⟨e, _, _, hr⟩ | ⟨_, ep, n, hr, _⟩
  · rw [hr]; exact ⟨rfl, rfl⟩
  · rw [hr]; exact ⟨rfl, rfl⟩

/-- C2: after one or more `onStateChange` calls that each ended with
`shouldComponentUpdate` true, the next render-committed step (directly, or after the render
that the calls requested) returns normally, calls `notifyNestedSubs` exactly once and
leaves `componentDidUpdate` undefined; a further render-committed step with no
`onStateChange` in between (directly, or after another render) calls `notifyNestedSubs`
zero times. -/
theorem deferred_notification_exactly_once (cfg : Config) (ws : List World) (this : Connect)
    (hne : ws ≠ []) (hall : allEndWithUpdate ws this = true)
    (hn : this.notifyNestedSubs ≠ none) (pending : Connect)
    (hp : pending = (Method.seq (ws.map onStateChange) this).state ∨
      pending = (render cfg (Method.seq (ws.map onStateChange) this).state).state) :
    (Method.seq (ws.map onStateChange) this).result = .ok () ∧
      (componentDidUpdate pending).result = .ok () ∧
      (componentDidUpdate pending).events.countP Event.isNotifyCall = 1 ∧
      (componentDidUpdate pending).state.componentDidUpdate = none ∧
      ∀ later : Connect,
        (later = (componentDidUpdate pending).state ∨
          later = (render cfg (componentDidUpdate pending).state).state) →
        (componentDidUpdate later).result = .ok () ∧
          (componentDidUpdate later).events.countP Event.isNotifyCall = 0 ∧
          (componentDidUpdate later).state.componentDidUpdate = none := by
  obtain ⟨h1, h2, h3⟩ := stateChanges_leave_deferred ws this hall hn
  obtain ⟨impl, himpl⟩ := Option.ne_none_iff_exists'.mp hn
  have hpn : pending.notifyNestedSubs = some impl ∧
      pending.componentDidUpdate = some .notifyNestedSubsOnComponentDidUpdate := by
    rcases hp with hp | hp
    · rw [hp, h2, h3 hne]; exact ⟨himpl, rfl⟩
    · obtain ⟨r1, r2⟩ := render_keeps_notifier cfg (Method.seq (ws.map onStateChange) this).state
      rw [hp, r1, r2, h2, h3 hne]; exact ⟨himpl, rfl⟩
  have hcommit : componentDidUpdate pending =
      ⟨[.notifyNestedSubs impl], { pending with componentDidUpdate := none }, .ok ()⟩ := by
    rw [componentDidUpdate_eq pending impl hpn.1, hpn.2]
  refine ⟨h1, ?_, ?_, ?_, ?_⟩
  · rw [hcommit]
  · rw [hcommit]; simp [Event.isNotifyCall]
  · rw [hcommit]
  · intro later hl
    have hln : later.notifyNestedSubs = some impl ∧ later.componentDidUpdate = none := by
      rcases hl with hl | hl
      · rw [hl, hcommit]; exact ⟨hpn.1, rfl⟩
      · obtain ⟨r1, r2⟩ := render_keeps_notifier cfg (componentDidUpdate pending).state
        rw [hl, r1, r2, hcommit]; exact ⟨hpn.1, rfl⟩
    have hlater : componentDidUpdate later = ⟨[], later, .ok ()⟩ := by
      rw [componentDidUpdate_eq later impl hln.1, hln.2]
    rw [hlater]
    exact ⟨rfl, rfl, hln.2⟩

/-- Witness of C2: the sample binding receives two notifications while the store holds a
new state object, then its render is committed. -/
theorem deferred_notification_exactly_once_witness :
    (componentDidUpdate
        (Method.seq ([worldTwo, worldTwo].map onStateChange) sampleConnect).state).events.countP
        Event.isNotifyCall = 1 ∧
      (componentDidUpdate
        (Method.seq ([worldTwo, worldTwo].map onStateChange)
          sampleConnect).state).state.componentDidUpdate = none :=
  ⟨(deferred_notification_exactly_once sampleConfig [worldTwo, worldTwo] sampleConnect
      (List.cons_ne_nil _ _) (by decide) (by decide) _ (Or.inl rfl)).2.2.1,
    (deferred_notification_exactly_once sampleConfig [worldTwo, worldTwo] sampleConnect
      (List.cons_ne_nil _ _) (by decide) (by decide) _ (Or.inl rfl)).2.2.2.1⟩

/-! ## Rendering: claim C5 -/

/-- The behaviour of `render` after a run of the selector made by `runComponentSelector`
from any earlier state `sel`, in world `w` with `props`. If the run raised a truthy value
`e`, `render` raises exactly `e` and creates no element. If the run raised a falsy value,
`render` raises nothing and creates an element from the `selector.props` stored before the
run. If the run produced an output `v`, `render` raises nothing and creates exactly one
element, from `selector.props`, which is `v`. -/
theorem render_after_run (cfg : Config) (w : World) (props : Props)
    (sel : Selector) (this : Connect) (hrun : sel.run = .runComponentSelector)
    (hsel : this.selector = (Selector.callRun w props sel).state) :
    (∀ e : Thrown, sel.evaluate w props = .error e → e.value.truthy = true →
        (render cfg this).result = .error (.thrown e) ∧ (render cfg this).events = []) ∧
      (∀ e : Thrown, sel.evaluate w props = .error e → e.value.truthy = false →
        ∃ ep : ElementProps, (render cfg this).result = .ok ep ∧
          (render cfg this).events = [.createElement ep] ∧ ep.base = sel.props) ∧
      (∀ v : Val, sel.evaluate w props = .ok v →
        ∃ ep : ElementProps, (render cfg this).result = .ok ep ∧
          (render cfg this).events = [.createElement ep] ∧
          ep.base = this.selector.props ∧ ep.base = v) := by
  rw [callRun_state, hrun] at hsel
  dsimp only at hsel
  rw [runComponentSelector_state] at hsel
  refine ⟨?_, ?_, ?_⟩
  · intro e he ht
    rw [he] at hsel
    have herr : this.selector.error = .caught (.thrown e) := by rw [hsel]
    rw [render_of_error cfg this _ herr ht]
    exact ⟨rfl, rfl⟩
  · intro e he ht
    rw [he] at hsel
    have hfalsy : this.selector.error.truthy = false := by
      rw [hsel]; exact ht
    have hprops : this.selector.props = sel.props := by rw [hsel]
    obtain ⟨ep, n, hr, hbase⟩ := render_of_no_error cfg this hfalsy
    refine ⟨ep, ?_, ?_, hbase.trans hprops⟩
    · rw [hr]
    · rw [hr]
  · intro v hv
    rw [hv] at hsel
    dsimp only at hsel
    have hok : this.selector.error.truthy = false ∧ this.selector.props = v := by
      by_cases hc : v ≠ sel.props ∨ sel.error.truthy = true
      · rw [if_pos hc] at hsel
        rw [hsel]; exact ⟨rfl, rfl⟩
      · rw [if_neg hc] at hsel
        rw [hsel]
        rw [not_or, not_not] at hc
        exact ⟨by simpa using hc.2, hc.1.symm⟩
    obtain ⟨ep, n, hr, hbase⟩ := render_of_no_error cfg this hok.1
    refine ⟨ep, ?_, ?_, hbase, hbase.trans hok.2⟩
    · rw [hr]
    · rw [hr]

/-- C5 fails on the code when the projection executes `throw null`. The binding is
constructed and rendered while the store holds the state object 1; the store then holds
the state object 2 and an upstream notification runs the selector. That run raises `null`:
it is captured in `selector.error`, `shouldComponentUpdate` becomes true and a render is
requested. The render raises nothing and creates an element from the stale
`selector.props`, the state object 1, because `if (selector.error)` tests truthiness. -/
theorem render_swallows_falsy_throw :
    (Connect.constructor nullThrowingConfig worldOne 4 plainProps providerContext ()).result =
        .ok nullThrowingConnect ∧
      (render nullThrowingConfig nullThrowingConnect).result =
        .ok { base := .obj 1, copied := false, ref := false, renderCount := none,
              subscription := none } ∧
      Selector.evaluate worldTwo plainProps
          (render nullThrowingConfig nullThrowingConnect).state.selector = .error ⟨.null⟩ ∧
      (onStateChange worldTwo
          (render nullThrowingConfig nullThrowingConnect).state).state.selector.error =
        .caught (.thrown ⟨.null⟩) ∧
      (onStateChange worldTwo
          (render nullThrowingConfig
            nullThrowingConnect).state).state.selector.shouldComponentUpdate = some true ∧
      (onStateChange worldTwo
          (render nullThrowingConfig nullThrowingConnect).state).events.countP
          Event.isSetState = 1 ∧
      (render nullThrowingConfig
          (onStateChange worldTwo
            (render nullThrowingConfig nullThrowingConnect).state).state).result =
        .ok { base := .obj 1, copied := false, ref := false, renderCount := none,
              subscription := none } ∧
      (render nullThrowingConfig
          (onStateChange worldTwo
            (render nullThrowingConfig nullThrowingConnect).state).state).events =
        [.createElement { base := .obj 1, copied := false, ref := false, renderCount := none,
                          subscription := none }] :=
  ⟨rfl, rfl, rfl, by decide, by decide, by decide, rfl, by decide⟩

/-! ## Unmounting: claim C6 -/

/-- The outcome of `componentWillUnmount`. -/
theorem componentWillUnmount_eq (this : Connect) :
    componentWillUnmount this =
      ⟨match this.subscription with
        | some sub => [.tryUnsubscribe sub.ref]
        | none => [],
        { this with
          subscription := none
          notifyNestedSubs := some .noop
          store := none
          selector := { this.selector with run := .noop, shouldComponentUpdate := some false } },
        .ok ()⟩ := by
  simp only [componentWillUnmount, Method.bind_eq, Method.bind, Method.get, Method.pure_eq]
  cases hs : this.subscription with
  | none => simp [Method.bind, Method.pure, Method.modify]
  | some sub =>
    simp [Subscription.tryUnsubscribe, Method.bind, Method.emit, Method.pure, Method.modify]

/-- On a binding whose `selector.run` and `notifyNestedSubs` hold `noop` and whose
`shouldComponentUpdate` is false, every notification returns normally, makes only calls of
`noop` and leaves the binding as it was. -/
theorem deliver_after_unmount (n : Notification) (this : Connect)
    (hrun : this.selector.run = .noop)
    (hflag : this.selector.shouldComponentUpdate = some false)
    (hnotify : this.notifyNestedSubs = some .noop) :
    (n.deliver this).result = .ok () ∧ (n.deliver this).state = this ∧
      ∀ ev ∈ (n.deliver this).events, ev.isNoopCall = true := by
  cases n with
  | stateChange w =>
    have hcall : Selector.callRun w this.props this.selector =
        ⟨[.selectorRun .noop this.props], this.selector, .ok ()⟩ := by
      rw [callRun_eq, hrun]
    have hfalse : truthyFlag
        (Selector.callRun w this.props this.selector).state.shouldComponentUpdate = false := by
      rw [hcall]
      show truthyFlag this.selector.shouldComponentUpdate = false
      rw [hflag]; rfl
    simp only [Notification.deliver]
    rw [onStateChange_eq w this .noop hnotify, if_pos hfalse, hcall]
    refine ⟨rfl, rfl, ?_⟩
    intro ev hev
    simp only [List.cons_append, List.nil_append, List.mem_cons, List.mem_singleton,
      List.mem_nil_iff, or_false] at hev
    rcases hev with h | h <;> (rw [h]; rfl)
  | receiveProps w nextProps =>
    have hcall : Selector.callRun w nextProps this.selector =
        ⟨[.selectorRun .noop nextProps], this.selector, .ok ()⟩ := by
      rw [callRun_eq, hrun]
    simp only [Notification.deliver, componentWillReceiveProps]
    rw [onSelector_callRun, hcall]
    refine ⟨rfl, rfl, ?_⟩
    intro ev hev
    simp only [List.mem_singleton] at hev
    rw [hev]; rfl

/-- A sequence of notifications to a binding in the state of `deliver_after_unmount`. -/
theorem deliver_all_after_unmount (ns : List Notification) (this : Connect)
    (hrun : this.selector.run = .noop)
    (hflag : this.selector.shouldComponentUpdate = some false)
    (hnotify : this.notifyNestedSubs = some .noop) :
    (Method.seq (ns.map Notification.deliver) this).result = .ok () ∧
      (Method.seq (ns.map Notification.deliver) this).state = this ∧
      ∀ ev ∈ (Method.seq (ns.map Notification.deliver) this).events, ev.isNoopCall = true := by
  induction ns with
  | nil =>
    refine ⟨rfl, rfl, ?_⟩
    intro ev hev
    simp [Method.seq, Method.pure] at hev
  | cons n rest ih =>
    obtain ⟨d1, d2, d3⟩ := deliver_after_unmount n this hrun hflag hnotify
    obtain ⟨i1, i2, i3⟩ := ih
    simp only [List.map_cons, Method.seq, Method.bind, d1, d2]
    refine ⟨i1, i2, ?_⟩
    intro ev hev
    rcases List.mem_append.mp hev with h | h
    · exact d3 ev h
    · exact i3 ev h

/-- C6: `componentWillUnmount` returns normally on a binding in any state, and afterwards
every sequence of notifications (`onStateChange` calls and `selector.run` calls made through
`componentWillReceiveProps`) returns normally, leaves every field of the binding as
`componentWillUnmount` left it, with `shouldComponentUpdate` false, and makes only calls of
`noop`: no `store.getState`, no projection, no `setState` or `forceUpdate`, no
`notifyNestedSubs` of a Subscription. A direct call of `selector.run` does the same. -/
theorem unmounted_binding_ignores_notifications (this : Connect) (ns : List Notification) :
    (componentWillUnmount this).result = .ok () ∧
      (componentWillUnmount this).state.selector.shouldComponentUpdate = some false ∧
      (Method.seq (ns.map Notification.deliver) (componentWillUnmount this).state).result
        = .ok () ∧
      (Method.seq (ns.map Notification.deliver) (componentWillUnmount this).state).state
        = (componentWillUnmount this).state ∧
      (∀ ev ∈ (Method.seq (ns.map Notification.deliver)
          (componentWillUnmount this).state).events, ev.isNoopCall = true) ∧
      ∀ (w : World) (props : Props),
        Selector.callRun w props (componentWillUnmount this).state.selector =
          ⟨[.selectorRun .noop props], (componentWillUnmount this).state.selector, .ok ()⟩ := by
  rw [componentWillUnmount_eq]
  obtain ⟨h1, h2, h3⟩ := deliver_all_after_unmount ns
    { this with
      subscription := none
      notifyNestedSubs := some .noop
      store := none
      selector := { this.selector with run := .noop, shouldComponentUpdate := some false } }
    rfl rfl rfl
  refine ⟨rfl, rfl, h1, h2, h3, ?_⟩
  intro w props
  rw [callRun_eq]

/-! ## Construction and context: claims C7, C8 -/

/-- The outcome of the constructor when neither props nor context holds a store. -/
theorem constructor_without_store (cfg : Config) (w : World) (fresh : Nat) (props : Props)
    (context : Context) (hp : props.store = none) (hc : context.store = none) :
    Connect.constructor cfg w fresh props context () =
      ⟨[], (), .error (.invariant (missingStoreMessage cfg))⟩ := by
  simp [Connect.constructor, hp, hc, Method.throw]

/-- The outcome of the constructor when `props[storeKey] || context[storeKey]` is the store
`store`: the selector factory is called with its dispatch; when the factory returns, the
selector is made and run once and `initSubscription` follows. -/
theorem constructor_with_store (cfg : Config) (w : World) (fresh : Nat) (props : Props)
    (context : Context) (store : Store)
    (hstore : (match props.store with
      | some s => some s
      | none => context.store) = some store) :
    Connect.constructor cfg w fresh props context () =
      match cfg.selectorFactory store cfg.options with
      | .error e => ⟨[.selectorFactory store], (), .error (.thrown e)⟩
      | .ok sourceSelector =>
        ⟨.selectorFactory store ::
            ((Selector.callRun w props (makeSelectorStateful sourceSelector store)).events ++
              if cfg.options.shouldHandleStateChanges = false then []
              else [.newSubscription fresh store
                (if props.store.isSome then props.storeSubscription
                  else context.storeSubscription)]),
          (),
          .ok
            { props := props
              context := context
              version := cfg.version
              renderCount := 0
              store := some store
              propsMode := props.store.isSome
              selector :=
                (Selector.callRun w props (makeSelectorStateful sourceSelector store)).state
              subscription :=
                if cfg.options.shouldHandleStateChanges = false then none
                else some
                  { ref := fresh
                    store := store
                    parentSub :=
                      if props.store.isSome then props.storeSubscription
                      else context.storeSubscription
                    connected := false }
              notifyNestedSubs :=
                if cfg.options.shouldHandleStateChanges = false then none
                else some (.bound fresh)
              componentDidUpdate := none }⟩ := by
  simp only [Connect.constructor, Method.bind_eq, Method.pure_eq, hstore]
  simp only [Method.bind, initSelector, Method.bind_eq, Method.emit, Method.runOn,
    callRun_result]
  cases hf : cfg.selectorFactory store cfg.options with
  | error e => simp [Method.ofUser]
  | ok sourceSelector =>
    by_cases hs : cfg.options.shouldHandleStateChanges = false
    · simp [Method.ofUser, Except.map, initSubscription, hs, Method.pure]
    · simp [Method.ofUser, Except.map, initSubscription, hs, Method.pure, Method.bind,
        Method.emit]

/-- A run assigns neither the closure variables of the selector nor its `run` field. -/
theorem callRun_keeps_closure (w : World) (props : Props) (sel : Selector) :
    (Selector.callRun w props sel).state.store = sel.store ∧
      (Selector.callRun w props sel).state.sourceSelector = sel.sourceSelector ∧
      (Selector.callRun w props sel).state.run = sel.run := by
  rw [callRun_state]
  cases hr : sel.run with
  | noop => exact ⟨rfl, rfl, hr⟩
  | runComponentSelector =>
    dsimp only
    rw [runComponentSelector_state]
    cases sel.evaluate w props with
    | error e => exact ⟨rfl, rfl, hr⟩
    | ok v =>
      dsimp only
      split
      · exact ⟨rfl, rfl, hr⟩
      · exact ⟨rfl, rfl, hr⟩

/-- C7: the constructor raises the missing-store error if and only if neither
`props[storeKey]` nor `context[storeKey]` holds a store; it then has made no call at all
(the selector factory was not invoked, no Subscription was created); and when both props
and context hold a store, the selector factory receives the dispatch of the store from
props, and the constructed binding, its selector and its Subscription use the store from
props. -/
theorem constructor_raises_iff_no_store (cfg : Config) (w : World) (fresh : Nat)
    (props : Props) (context : Context) :
    ((Connect.constructor cfg w fresh props context ()).result =
        .error (.invariant (missingStoreMessage cfg)) ↔
      (props.store = none ∧ context.store = none)) ∧
      ((props.store = none ∧ context.store = none) →
        (Connect.constructor cfg w fresh props context ()).events = []) ∧
      ∀ fromProps fromContext : Store,
        props.store = some fromProps → context.store = some fromContext →
        (∃ rest, (Connect.constructor cfg w fresh props context ()).events =
          .selectorFactory fromProps :: rest) ∧
        ∀ this : Connect,
          (Connect.constructor cfg w fresh props context ()).result = .ok this →
          this.store = some fromProps ∧ this.selector.store = fromProps ∧
            this.propsMode = true ∧
            ∀ sub : Subscription, this.subscription = some sub → sub.store = fromProps := by
  have hwith : ∀ store : Store,
      (match props.store with
        | some s => some s
        | none => context.store) = some store →
      (Connect.constructor cfg w fresh props context ()).result ≠
        .error (.invariant (missingStoreMessage cfg)) := by
    intro store hstore
    rw [constructor_with_store cfg w fresh props context store hstore]
    cases cfg.selectorFactory store cfg.options with
    | error e => simp
    | ok sourceSelector => simp
  refine ⟨⟨?_, ?_⟩, ?_, ?_⟩
  · intro hraise
    cases hp : props.store with
    | some sp => exact absurd hraise (hwith sp (by rw [hp]))
    | none =>
      cases hc : context.store with
      | some sc => exact absurd hraise (hwith sc (by rw [hp, hc]))
      | none => exact ⟨rfl, rfl⟩
  · rintro ⟨hp, hc⟩
    rw [constructor_without_store cfg w fresh props context hp hc]
  · rintro ⟨hp, hc⟩
    rw [constructor_without_store cfg w fresh props context hp hc]
  · intro fromProps fromContext hp hc
    rw [constructor_with_store cfg w fresh props context fromProps (by rw [hp])]
    cases cfg.selectorFactory fromProps cfg.options with
    | error e =>
      refine ⟨⟨[], rfl⟩, ?_⟩
      intro this hthis
      simp at hthis
    | ok sourceSelector =>
      refine ⟨⟨_, rfl⟩, ?_⟩
      intro this hthis
      simp only [Except.ok.injEq] at hthis
      subst hthis
      refine ⟨rfl, ?_, ?_, ?_⟩
      · exact (callRun_keeps_closure w props _).1
      · simp [hp]
      · intro sub hsub
        by_cases hs : cfg.options.shouldHandleStateChanges = false
        · simp [hs] at hsub
        · simp [hs] at hsub
          rw [← hsub]

/-- Witness of C7: constructed from props without a store under a context without a store,
the sample component raises the missing-store error without having made any call. -/
theorem constructor_raises_iff_no_store_witness :
    (Connect.constructor sampleConfig worldOne 4 plainProps emptyContext ()).result =
        .error (.invariant (missingStoreMessage sampleConfig)) ∧
      (Connect.constructor sampleConfig worldOne 4 plainProps emptyContext ()).events = [] :=
  ⟨(constructor_raises_iff_no_store sampleConfig worldOne 4 plainProps emptyContext).1.mpr
      ⟨rfl, rfl⟩,
    (constructor_raises_iff_no_store sampleConfig worldOne 4 plainProps emptyContext).2.1
      ⟨rfl, rfl⟩⟩

/-- C8: a binding that took its store from props (`propsMode` true) exposes to its
descendants exactly the subscription it found in its own context, possibly none, whatever
its own Subscription is, and so never its own Subscription (a different object); a binding
that took its store from context and has its own Subscription exposes that Subscription.
The constructor sets `propsMode` exactly when `props[storeKey]` holds a store. -/
theorem getChildContext_forwards_or_shadows (this : Connect) :
    (this.propsMode = true →
        getChildContext this = this.context.storeSubscription ∧
          (∀ own : Option Subscription,
            getChildContext { this with subscription := own } =
              this.context.storeSubscription) ∧
          ∀ sub : Subscription, this.subscription = some sub →
            this.context.storeSubscription ≠ some sub.ref →
            getChildContext this ≠ some sub.ref) ∧
      (∀ sub : Subscription, this.propsMode = false → this.subscription = some sub →
        getChildContext this = some sub.ref) ∧
      ∀ (cfg : Config) (w : World) (fresh : Nat) (props : Props) (context : Context),
        (Connect.constructor cfg w fresh props context ()).result = .ok this →
        this.propsMode = props.store.isSome ∧ this.context = context := by
  refine ⟨?_, ?_, ?_⟩
  · intro hmode
    refine ⟨?_, ?_, ?_⟩
    · simp [getChildContext, hmode]
    · intro own
      simp [getChildContext, hmode]
    · intro sub _ hne
      simpa [getChildContext, hmode] using hne
  · intro sub hmode hsub
    simp [getChildContext, hmode, hsub]
  · intro cfg w fresh props context hresult
    cases hstore : (match props.store with
      | some s => some s
      | none => context.store) with
    | none =>
      have hp : props.store = none := by
        cases h : props.store with
        | none => rfl
        | some s => rw [h] at hstore; simp at hstore
      have hc : context.store = none := by
        rw [hp] at hstore; exact hstore
      rw [constructor_without_store cfg w fresh props context hp hc] at hresult
      simp at hresult
    | some store =>
      rw [constructor_with_store cfg w fresh props context store hstore] at hresult
      cases hf : cfg.selectorFactory store cfg.options with
      | error e => rw [hf] at hresult; simp at hresult
      | ok sourceSelector =>
        rw [hf] at hresult
        simp only [Except.ok.injEq] at hresult
        subst hresult
        exact ⟨rfl, rfl⟩

/-- Witness of C8: the sample binding took its store from context and exposes its own
Subscription, the object 4; given the store through props instead, it forwards the
subscription 3 of its context. -/
theorem getChildContext_forwards_or_shadows_witness :
    getChildContext sampleConnect = some 4 ∧
      getChildContext { sampleConnect with props := storeProps, propsMode := true } = some 3 :=
  ⟨(getChildContext_forwards_or_shadows sampleConnect).2.1 _ rfl rfl,
    ((getChildContext_forwards_or_shadows
      { sampleConnect with props := storeProps, propsMode := true }).1 rfl).1⟩

/-! ## Mounting: claim C10 -/

/-- The outcome of `componentDidMount` on a binding that handles state changes and holds
its Subscription. -/
theorem componentDidMount_eq (cfg : Config) (w : World) (this : Connect) (sub : Subscription)
    (hcfg : cfg.options.shouldHandleStateChanges = true) (hsub : this.subscription = some sub) :
    componentDidMount cfg w this =
      ⟨.trySubscribe sub.ref ::
          ((Selector.callRun w this.props this.selector).events ++
            if truthyFlag (Selector.callRun w this.props this.selector).state.shouldComponentUpdate
                = true then [.forceUpdate]
            else []),
        { this with
          subscription := some { sub with connected := true }
          selector := (Selector.callRun w this.props this.selector).state },
        .ok ()⟩ := by
  by_cases hc :
      truthyFlag (Selector.callRun w this.props this.selector).state.shouldComponentUpdate = true
  · simp [componentDidMount, hcfg, Method.bind, Method.get, hsub, Subscription.trySubscribe,
      Method.emit, Method.pure, Method.modify, onSelector_callRun, hc]
  · simp [componentDidMount, hcfg, Method.bind, Method.get, hsub, Subscription.trySubscribe,
      Method.emit, Method.pure, Method.modify, onSelector_callRun, hc]

/-- C10: on a binding created with `shouldHandleStateChanges` true and holding its
Subscription, `componentDidMount` returns normally, calls `trySubscribe` on that
Subscription exactly once and first, then calls `selector.run` exactly once, with the
current props, and calls `forceUpdate` once when `shouldComponentUpdate` is true after that
run and not at all otherwise. In particular, when the projection now returns an output that
is not reference-equal to the stored one, `forceUpdate` is called. -/
theorem componentDidMount_subscribes_and_reruns (cfg : Config) (w : World) (this : Connect)
    (sub : Subscription) (hcfg : cfg.options.shouldHandleStateChanges = true)
    (hsub : this.subscription = some sub) :
    (componentDidMount cfg w this).result = .ok () ∧
      (∃ rest, (componentDidMount cfg w this).events =
          .trySubscribe sub.ref :: .selectorRun this.selector.run this.props :: rest) ∧
      (componentDidMount cfg w this).events.countP Event.isTrySubscribe = 1 ∧
      (componentDidMount cfg w this).events.countP Event.isSelectorRun = 1 ∧
      (componentDidMount cfg w this).state.selector =
        (Selector.callRun w this.props this.selector).state ∧
      (componentDidMount cfg w this).events.countP Event.isForceUpdate =
        (if truthyFlag (componentDidMount cfg w this).state.selector.shouldComponentUpdate = true
          then 1 else 0) ∧
      ∀ v : Val, this.selector.run = .runComponentSelector →
        this.selector.evaluate w this.props = .ok v → v ≠ this.selector.props →
        (componentDidMount cfg w this).events.countP Event.isForceUpdate = 1 := by
  obtain ⟨⟨rest, hrest, hcount⟩, _, _, hf, ht⟩ := callRun_events w this.props this.selector
  have hflag : ∀ v : Val, this.selector.run = .runComponentSelector →
      this.selector.evaluate w this.props = .ok v → v ≠ this.selector.props →
      truthyFlag (Selector.callRun w this.props this.selector).state.shouldComponentUpdate
        = true := by
    intro v hrun hv hne
    rw [callRun_state, hrun]
    dsimp only
    rw [runComponentSelector_state, hv]
    dsimp only
    rw [if_pos (Or.inl hne)]
    rfl
  rw [componentDidMount_eq cfg w this sub hcfg hsub]
  refine ⟨rfl, ?_, ?_, ?_, rfl, ?_, ?_⟩
  · rw [hrest]
    exact ⟨_, rfl⟩
  · by_cases hc : truthyFlag
        (Selector.callRun w this.props this.selector).state.shouldComponentUpdate = true
    · simp [hc, List.countP_cons, List.countP_append, ht, Event.isTrySubscribe]
    · simp [hc, List.countP_cons, List.countP_append, ht, Event.isTrySubscribe]
  · by_cases hc : truthyFlag
        (Selector.callRun w this.props this.selector).state.shouldComponentUpdate = true
    · simp [hc, hrest, List.countP_cons, List.countP_append, hcount, Event.isSelectorRun]
    · simp [hc, hrest, List.countP_cons, List.countP_append, hcount, Event.isSelectorRun]
  · by_cases hc : truthyFlag
        (Selector.callRun w this.props this.selector).state.shouldComponentUpdate = true
    · simp [hc, List.countP_cons, List.countP_append, hf, Event.isForceUpdate]
    · simp [hc, List.countP_cons, List.countP_append, hf, Event.isForceUpdate]
  · intro v hrun hv hne
    simp [hflag v hrun hv hne, List.countP_cons, List.countP_append, hf, Event.isForceUpdate]

/-- Witness of C10: the sample binding is rendered, the store then takes a new state
object, and `componentDidMount` calls `forceUpdate`. -/
theorem componentDidMount_subscribes_and_reruns_witness :
    (componentDidMount sampleConfig worldTwo
        (render sampleConfig sampleConnect).state).events.countP Event.isForceUpdate = 1 ∧
      (componentDidMount sampleConfig worldTwo
        (render sampleConfig sampleConnect).state).events.countP Event.isTrySubscribe = 1 :=
  ⟨(componentDidMount_subscribes_and_reruns sampleConfig worldTwo
      (render sampleConfig sampleConnect).state
      { ref := 4, store := ⟨0⟩, parentSub := some 3, connected := false } rfl rfl).2.2.2.2.2.2
      (.obj 2) rfl rfl (by decide),
    (componentDidMount_subscribes_and_reruns sampleConfig worldTwo
      (render sampleConfig sampleConnect).state
      { ref := 4, store := ⟨0⟩, parentSub := some 3, connected := false } rfl rfl).2.2.1⟩

/-! ## The notifier field of constructed bindings -/

/-- A binding constructed with `shouldHandleStateChanges` true holds its Subscription and
has `notifyNestedSubs` bound to it. -/
theorem constructor_assigns_notifier (cfg : Config) (w : World) (fresh : Nat) (props : Props)
    (context : Context) (this : Connect)
    (hcfg : cfg.options.shouldHandleStateChanges = true)
    (hresult : (Connect.constructor cfg w fresh props context ()).result = .ok this) :
    this.notifyNestedSubs = some (.bound fresh) ∧
      ∃ sub : Subscription, this.subscription = some sub ∧ sub.ref = fresh := by
  cases hstore : (match props.store with
    | some s => some s
    | none => context.store) with
  | none =>
    have hp : props.store = none := by
      cases h : props.store with
      | none => rfl
      | some s => rw [h] at hstore; simp at hstore
    have hc : context.store = none := by
      rw [hp] at hstore; exact hstore
    rw [constructor_without_store cfg w fresh props context hp hc] at hresult
    simp at hresult
  | some store =>
    rw [constructor_with_store cfg w fresh props context store hstore] at hresult
    cases hf : cfg.selectorFactory store cfg.options with
    | error e => rw [hf] at hresult; simp at hresult
    | ok sourceSelector =>
      rw [hf] at hresult
      simp only [Except.ok.injEq] at hresult
      subst hresult
      simp [hcfg]

/-- No notification, render or render-committed step leaves `notifyNestedSubs` undefined
once it is assigned, and `componentWillUnmount` assigns it. -/
theorem notifier_stays_assigned (cfg : Config) (this : Connect)
    (h : this.notifyNestedSubs ≠ none) :
    (∀ n : Notification, (n.deliver this).state.notifyNestedSubs ≠ none) ∧
      (render cfg this).state.notifyNestedSubs ≠ none ∧
      (componentDidUpdate this).state.notifyNestedSubs ≠ none ∧
      (componentWillUnmount this).state.notifyNestedSubs ≠ none := by
  obtain ⟨impl, himpl⟩ := Option.ne_none_iff_exists'.mp h
  refine ⟨?_, ?_, ?_, ?_⟩
  · intro n
    cases n with
    | stateChange w =>
      simp only [Notification.deliver]
      rw [onStateChange_eq w this impl himpl]
      split <;> simp [himpl]
    | receiveProps w nextProps =>
      simp only [Notification.deliver, componentWillReceiveProps]
      rw [onSelector_callRun]
      simp [himpl]
  · rw [(render_keeps_notifier cfg this).1]
    exact h
  · rw [componentDidUpdate_eq this impl himpl]
    cases this.componentDidUpdate with
    | none => simp [himpl]
    | some d => cases d; simp [himpl]
  · rw [componentWillUnmount_eq]
    simp

/-! ## The update flag between renders: claim C13 -/

/-- A call of `selector.run` on a selector whose `shouldComponentUpdate` is true leaves it
true. -/
theorem callRun_keeps_flag (w : World) (props : Props) (sel : Selector)
    (h : sel.shouldComponentUpdate = some true) :
    (Selector.callRun w props sel).state.shouldComponentUpdate = some true := by
  rw [callRun_state]
  cases sel.run with
  | noop => exact h
  | runComponentSelector =>
    dsimp only
    rw [runComponentSelector_state]
    cases sel.evaluate w props with
    | error e => rfl
    | ok v =>
      dsimp only
      split
      · rfl
      · exact h

/-- A sequence of `selector.run` calls on a selector whose `shouldComponentUpdate` is true
leaves it true. -/
theorem runs_keep_flag (history : List (World × Props)) :
    ∀ sel : Selector, sel.shouldComponentUpdate = some true →
      (sel.runs history).shouldComponentUpdate = some true := by
  induction history with
  | nil => intro sel h; exact h
  | cons step rest ih =>
    intro sel h
    obtain ⟨w, props⟩ := step
    simp only [Selector.runs]
    exact ih _ (callRun_keeps_flag w props sel h)

/-- C13: a call of `selector.run` never changes `shouldComponentUpdate` from true to
false, and neither does any sequence of such calls; once a run made by
`runComponentSelector` has raised or produced an output that is not reference-equal to the
stored one, `shouldComponentUpdate` is true after that run and after every later run of the
sequence, whatever those runs produce; `render` resets it to false. -/
theorem run_never_clears_shouldComponentUpdate (w : World) (props : Props) (sel : Selector)
    (later : List (World × Props)) :
    (sel.shouldComponentUpdate = some true →
        (Selector.callRun w props sel).state.shouldComponentUpdate = some true ∧
          (sel.runs later).shouldComponentUpdate = some true) ∧
      (sel.run = .runComponentSelector → sel.changedOrRaised w props = true →
        (Selector.callRun w props sel).state.shouldComponentUpdate = some true ∧
          ((Selector.callRun w props sel).state.runs later).shouldComponentUpdate
            = some true) ∧
      ∀ (cfg : Config) (this : Connect),
        (render cfg this).state.selector.shouldComponentUpdate = some false := by
  refine ⟨?_, ?_, ?_⟩
  · intro h
    exact ⟨callRun_keeps_flag w props sel h, runs_keep_flag later sel h⟩
  · intro hrun hchanged
    have hset : (Selector.callRun w props sel).state.shouldComponentUpdate = some true := by
      rw [callRun_state, hrun]
      dsimp only
      rw [runComponentSelector_state]
      simp only [Selector.changedOrRaised] at hchanged
      cases he : sel.evaluate w props with
      | error e => rfl
      | ok v =>
        rw [he] at hchanged
        dsimp only
        rw [if_pos (Or.inl (by simpa using hchanged))]
    exact ⟨hset, runs_keep_flag later _ hset⟩
  · intro cfg this
    rcases render_outcome cfg this with ⟨e, _, _, hr⟩ | ⟨_, ep, n, hr, _⟩
    · rw [hr]
    · rw [hr]

/-- Witness of C13: a new selector whose projection returns the state object 1 detects a
change on its first run; a second run with the same output leaves the flag true. -/
theorem run_never_clears_shouldComponentUpdate_witness :
    ((Selector.callRun worldOne plainProps
        (makeSelectorStateful identityProjection ⟨0⟩)).state.runs
        [(worldOne, plainProps)]).shouldComponentUpdate = some true ∧
      Selector.changedOrRaised worldOne plainProps
        (Selector.callRun worldOne plainProps
          (makeSelectorStateful identityProjection ⟨0⟩)).state = false :=
  ⟨((run_never_clears_shouldComponentUpdate worldOne plainProps
      (makeSelectorStateful identityProjection ⟨0⟩) [(worldOne, plainProps)]).2.1
      rfl (by decide)).2,
    by decide⟩

/-! ## The proxy of `wrapMapToPropsFunc`: claim C12 -/

/-- The outcome of the proxy body when the field holds the function object `f`. -/
theorem proxyCall_eq (f : MapFn) (stateOrDispatch ownProps : Val) (proxy : Proxy) :
    proxyCall f stateOrDispatch ownProps proxy =
      ⟨[.callFunction f.ref stateOrDispatch
          (if proxy.dependsOnOwnProps = true then some ownProps else none)],
        proxy,
        (f.call stateOrDispatch
          (if proxy.dependsOnOwnProps = true then some ownProps else none)).toResult⟩ := by
  simp only [proxyCall, Method.bind_eq, Method.bind, Method.get]
  cases hd : proxy.dependsOnOwnProps with
  | true =>
    simp only [if_true, MapFn.invoke, Method.bind_eq, Method.bind, Method.emit]
    cases (f.call stateOrDispatch (some ownProps)).toResult <;> simp
  | false =>
    simp only [Bool.false_eq_true, if_false, MapFn.invoke, Method.bind_eq, Method.bind,
      Method.emit]
    cases (f.call stateOrDispatch none).toResult <;> simp

/-- The outcome of a call of the proxy once a function object `f` is assigned to
`proxy.mapToProps` with `proxy.dependsOnOwnProps` computed from it: `f` alone is called,
with `ownProps` exactly when `getDependsOnOwnProps(f)` is true, and the proxy is not
reassigned. -/
theorem mapToPropsProxy_settled (c : ProxyClosure) (f : MapFn) (stateOrDispatch ownProps : Val) :
    mapToPropsProxy c stateOrDispatch ownProps
        { mapToProps := .function f, dependsOnOwnProps := getDependsOnOwnProps f } =
      ⟨[.callFunction f.ref stateOrDispatch (ownPropsFor f ownProps)],
        { mapToProps := .function f, dependsOnOwnProps := getDependsOnOwnProps f },
        (f.call stateOrDispatch (ownPropsFor f ownProps)).toResult⟩ := by
  simp only [mapToPropsProxy, Method.bind_eq, Method.bind, Method.get, proxyCall_eq,
    ownPropsFor, List.nil_append]

/-- A sequence of calls of a settled proxy leaves it as it is. -/
theorem calls_settled (c : ProxyClosure) (f : MapFn) (calls : List (Val × Val)) :
    Proxy.calls c { mapToProps := .function f, dependsOnOwnProps := getDependsOnOwnProps f }
        calls =
      { mapToProps := .function f, dependsOnOwnProps := getDependsOnOwnProps f } := by
  induction calls with
  | nil => rfl
  | cons call rest ih =>
    obtain ⟨stateOrDispatch, ownProps⟩ := call
    simp only [Proxy.calls, mapToPropsProxy_settled]
    exact ih

/-- The outcome of the first call of the proxy. -/
theorem mapToPropsProxy_first (c : ProxyClosure) (stateOrDispatch ownProps : Val) :
    mapToPropsProxy c stateOrDispatch ownProps initProxySelector =
      match c.mapToProps.call stateOrDispatch (ownPropsFor c.mapToProps ownProps) with
      | .raise e =>
        ⟨[.callFunction c.mapToProps.ref stateOrDispatch (ownPropsFor c.mapToProps ownProps)],
          { mapToProps := .function c.mapToProps
            dependsOnOwnProps := getDependsOnOwnProps c.mapToProps },
          .error (.thrown e)⟩
      | .value v =>
        ⟨.callFunction c.mapToProps.ref stateOrDispatch (ownPropsFor c.mapToProps ownProps) ::
            (if c.production = false then [.verifyPlainObject c.displayName c.methodName]
              else []),
          { mapToProps := .function c.mapToProps
            dependsOnOwnProps := getDependsOnOwnProps c.mapToProps },
          .ok (.value v)⟩
      | .function f =>
        ⟨.callFunction c.mapToProps.ref stateOrDispatch (ownPropsFor c.mapToProps ownProps) ::
            .callFunction f.ref stateOrDispatch (ownPropsFor f ownProps) ::
            (match (f.call stateOrDispatch (ownPropsFor f ownProps)).toResult with
              | .ok _ =>
                if c.production = false then [.verifyPlainObject c.displayName c.methodName]
                else []
              | .error _ => []),
          { mapToProps := .function f, dependsOnOwnProps := getDependsOnOwnProps f },
          (f.call stateOrDispatch (ownPropsFor f ownProps)).toResult⟩ := by
  simp only [mapToPropsProxy, initProxySelector, Method.bind_eq, Method.bind, Method.get,
    if_true, detectFactoryAndVerify, Method.modify, proxyCall_eq, ownPropsFor, Method.pure_eq]
  cases h1 : c.mapToProps.call stateOrDispatch
      (if getDependsOnOwnProps c.mapToProps = true then some ownProps else none) with
  | raise e => simp [MapReturn.toResult]
  | value v =>
    cases hp : c.production <;>
      simp [MapReturn.toResult, Method.pure, Method.bind, verifyPlainObject, Method.emit]
  | function f =>
    simp only [MapReturn.toResult, Method.bind, Method.modify, proxyCall_eq]
    cases h2 : f.call stateOrDispatch
        (if getDependsOnOwnProps f = true then some ownProps else none) with
    | raise e => simp [MapReturn.toResult]
    | value v =>
      cases hp : c.production <;>
        simp [MapReturn.toResult, Method.pure, Method.bind, verifyPlainObject, Method.emit]
    | function g =>
      cases hp : c.production <;>
        simp [MapReturn.toResult, Method.pure, Method.bind, verifyPlainObject, Method.emit]

/-- C12: on the first call of the proxy `mapToProps` is invoked once, with `ownProps`
exactly when `getDependsOnOwnProps(mapToProps)` is true. If it returns a function `f`, the
first call then invokes `f` on the same `stateOrDispatch`, with `ownProps` exactly when
`getDependsOnOwnProps(f)` is true, and completes as that call of `f` does; every later call
of the proxy invokes `f` alone and completes as `f` does. If it returns a value that is not
a function, that value is the result of the first call, and every later call of the proxy
invokes `mapToProps` alone, with `ownProps` exactly when `getDependsOnOwnProps(mapToProps)`
is true. -/
theorem proxy_settles_on_first_call (c : ProxyClosure) (stateOrDispatch ownProps : Val) :
    (∀ f : MapFn,
        c.mapToProps.call stateOrDispatch (ownPropsFor c.mapToProps ownProps) = .function f →
        (mapToPropsProxy c stateOrDispatch ownProps initProxySelector).result =
            (f.call stateOrDispatch (ownPropsFor f ownProps)).toResult ∧
          (∃ rest, (mapToPropsProxy c stateOrDispatch ownProps initProxySelector).events =
              .callFunction c.mapToProps.ref stateOrDispatch
                  (ownPropsFor c.mapToProps ownProps) ::
                .callFunction f.ref stateOrDispatch (ownPropsFor f ownProps) :: rest ∧
            rest.countP Event.isFunctionCall = 0) ∧
          ∀ (calls : List (Val × Val)) (nextState nextOwnProps : Val),
            mapToPropsProxy c nextState nextOwnProps
                (Proxy.calls c
                  (mapToPropsProxy c stateOrDispatch ownProps initProxySelector).state calls) =
              ⟨[.callFunction f.ref nextState (ownPropsFor f nextOwnProps)],
                (mapToPropsProxy c stateOrDispatch ownProps initProxySelector).state,
                (f.call nextState (ownPropsFor f nextOwnProps)).toResult⟩) ∧
      ∀ v : Val,
        c.mapToProps.call stateOrDispatch (ownPropsFor c.mapToProps ownProps) = .value v →
        (mapToPropsProxy c stateOrDispatch ownProps initProxySelector).result =
            .ok (.value v) ∧
          (∃ rest, (mapToPropsProxy c stateOrDispatch ownProps initProxySelector).events =
              .callFunction c.mapToProps.ref stateOrDispatch
                  (ownPropsFor c.mapToProps ownProps) :: rest ∧
            rest.countP Event.isFunctionCall = 0) ∧
          ∀ (calls : List (Val × Val)) (nextState nextOwnProps : Val),
            mapToPropsProxy c nextState nextOwnProps
                (Proxy.calls c
                  (mapToPropsProxy c stateOrDispatch ownProps initProxySelector).state calls) =
              ⟨[.callFunction c.mapToProps.ref nextState
                  (ownPropsFor c.mapToProps nextOwnProps)],
                (mapToPropsProxy c stateOrDispatch ownProps initProxySelector).state,
                (c.mapToProps.call nextState
                  (ownPropsFor c.mapToProps nextOwnProps)).toResult⟩ := by
  constructor
  · intro f hf
    rw [mapToPropsProxy_first, hf]
    dsimp only
    refine ⟨rfl, ⟨_, rfl, ?_⟩, ?_⟩
    · cases (f.call stateOrDispatch (ownPropsFor f ownProps)).toResult with
      | error e => rfl
      | ok r => cases c.production <;> simp [Event.isFunctionCall]
    · intro calls nextState nextOwnProps
      rw [calls_settled, mapToPropsProxy_settled]
  · intro v hv
    rw [mapToPropsProxy_first, hv]
    dsimp only
    refine ⟨rfl, ⟨_, rfl, ?_⟩, ?_⟩
    · cases c.production <;> simp [Event.isFunctionCall]
    · intro calls nextState nextOwnProps
      rw [calls_settled, mapToPropsProxy_settled]

/-- Witness of C12: a proxy that wraps a factory returning `selectState`. The first call
returns the state it is given, and a later call invokes `selectState` alone, without
`ownProps`. -/
theorem proxy_settles_on_first_call_witness :
    (mapToPropsProxy factoryClosure (.obj 1) (.obj 10) initProxySelector).result =
        .ok (.value (.obj 1)) ∧
      (mapToPropsProxy factoryClosure (.obj 2) (.obj 10)
          (mapToPropsProxy factoryClosure (.obj 1) (.obj 10) initProxySelector).state).events =
        [.callFunction 21 (.obj 2) none] :=
  ⟨((proxy_settles_on_first_call factoryClosure (.obj 1) (.obj 10)).1 selectState rfl).1,
    congrArg Outcome.events
      (((proxy_settles_on_first_call factoryClosure (.obj 1) (.obj 10)).1 selectState rfl).2.2
        [] (.obj 2) (.obj 10))⟩

/-! ## The facade `connect`: claim C11 -/

/-- No call made by `selector.run(props)` creates or connects a Subscription. -/
theorem callRun_never_subscribes (w : World) (props : Props) (sel : Selector) :
    ∀ ev ∈ (Selector.callRun w props sel).events,
      ev.isTrySubscribe = false ∧ ev.isNewSubscription = false := by
  rw [callRun_eq, runComponentSelector_eq]
  cases hr : sel.run with
  | noop => simp [Event.isTrySubscribe, Event.isNewSubscription]
  | runComponentSelector =>
    cases hw : w sel.store with
    | error e => simp [Event.isTrySubscribe, Event.isNewSubscription]
    | ok st =>
      cases hs : sel.sourceSelector st props <;>
        simp [hs, Event.isTrySubscribe, Event.isNewSubscription]

/-- The method `onStateChange`, on any instance, leaves `this.subscription` as it is and
neither creates nor connects a Subscription. -/
theorem onStateChange_never_subscribes (w : World) (this : Connect) :
    (onStateChange w this).state.subscription = this.subscription ∧
      ∀ ev ∈ (onStateChange w this).events,
        ev.isTrySubscribe = false ∧ ev.isNewSubscription = false := by
  have hrun := callRun_never_subscribes w this.props this.selector
  cases hn : this.notifyNestedSubs with
  | some impl =>
    rw [onStateChange_eq w this impl hn]
    split
    · refine ⟨rfl, ?_⟩
      intro ev hev
      rcases List.mem_append.mp hev with h | h
      · exact hrun ev h
      · simp only [List.mem_singleton] at h
        rw [h]; exact ⟨rfl, rfl⟩
    · refine ⟨rfl, ?_⟩
      intro ev hev
      rcases List.mem_append.mp hev with h | h
      · exact hrun ev h
      · simp only [List.mem_singleton] at h
        rw [h]; exact ⟨rfl, rfl⟩
  | none =>
    by_cases hc : truthyFlag
        (Selector.callRun w this.props this.selector).state.shouldComponentUpdate = false
    · have heq : onStateChange w this =
          ⟨(Selector.callRun w this.props this.selector).events,
            { this with selector := (Selector.callRun w this.props this.selector).state },
            .error (.typeError "this.notifyNestedSubs is not a function")⟩ := by
        simp [onStateChange, Method.bind, Method.get, onSelector_callRun, hc,
          callNotifyNestedSubs, hn, Method.throw]
      rw [heq]
      exact ⟨rfl, hrun⟩
    · have heq : onStateChange w this =
          ⟨(Selector.callRun w this.props this.selector).events ++ [.setState],
            { this with
              selector := (Selector.callRun w this.props this.selector).state
              componentDidUpdate := some .notifyNestedSubsOnComponentDidUpdate },
            .ok ()⟩ := by
        simp [onStateChange, Method.bind, Method.get, onSelector_callRun, hc,
          Method.modify, Method.emit]
      rw [heq]
      refine ⟨rfl, ?_⟩
      intro ev hev
      rcases List.mem_append.mp hev with h | h
      · exact hrun ev h
      · simp only [List.mem_singleton] at h
        rw [h]; exact ⟨rfl, rfl⟩

/-- The render-committed step, on any instance, leaves `this.subscription` as it is and
neither creates nor connects a Subscription. -/
theorem componentDidUpdate_never_subscribes (this : Connect) :
    (componentDidUpdate this).state.subscription = this.subscription ∧
      ∀ ev ∈ (componentDidUpdate this).events,
        ev.isTrySubscribe = false ∧ ev.isNewSubscription = false := by
  cases hn : this.notifyNestedSubs with
  | some impl =>
    rw [componentDidUpdate_eq this impl hn]
    cases this.componentDidUpdate with
    | none => simp
    | some d => cases d; simp [Event.isTrySubscribe, Event.isNewSubscription]
  | none =>
    cases hd : this.componentDidUpdate with
    | none => simp [componentDidUpdate, Method.bind, Method.get, hd, Method.pure]
    | some d =>
      cases d
      simp [componentDidUpdate, Method.bind, Method.get, hd,
        notifyNestedSubsOnComponentDidUpdate, Method.modify, callNotifyNestedSubs, hn,
        Method.throw]

/-- The method `render`, on any instance, leaves `this.subscription` as it is and neither
creates nor connects a Subscription. -/
theorem render_never_subscribes (cfg : Config) (this : Connect) :
    (render cfg this).state.subscription = this.subscription ∧
      ∀ ev ∈ (render cfg this).events,
        ev.isTrySubscribe = false ∧ ev.isNewSubscription = false := by
  rcases render_outcome cfg this with ⟨e, _, _, hr⟩ | ⟨_, ep, n, hr, _⟩
  · rw [hr]
    simp
  · rw [hr]
    simp [Event.isTrySubscribe, Event.isNewSubscription]

/-- On an instance without a Subscription, of a class with `shouldHandleStateChanges`
false, no step creates or connects a Subscription, and the instance stays without one. -/
theorem step_never_subscribes (cfg : Config) (l : Lifecycle) (this : Connect)
    (hcfg : cfg.options.shouldHandleStateChanges = false) (hsub : this.subscription = none) :
    (l.step cfg this).state.subscription = none ∧
      ∀ ev ∈ (l.step cfg this).events,
        ev.isTrySubscribe = false ∧ ev.isNewSubscription = false := by
  cases l with
  | didMount w =>
    have heq : componentDidMount cfg w this = ⟨[], this, .ok ()⟩ := by
      simp [componentDidMount, hcfg, Method.pure]
    simp only [Lifecycle.step]
    rw [heq]
    exact ⟨hsub, by simp⟩
  | notified n =>
    cases n with
    | stateChange w =>
      obtain ⟨h1, h2⟩ := onStateChange_never_subscribes w this
      simp only [Lifecycle.step, Notification.deliver]
      exact ⟨h1.trans hsub, h2⟩
    | receiveProps w nextProps =>
      simp only [Lifecycle.step, Notification.deliver, componentWillReceiveProps]
      rw [onSelector_callRun]
      exact ⟨hsub, callRun_never_subscribes w nextProps this.selector⟩
  | rendered =>
    obtain ⟨h1, h2⟩ := render_never_subscribes cfg this
    have hstate : (Lifecycle.step cfg .rendered this).state = (render cfg this).state := by
      simp only [Lifecycle.step, Method.bind_eq, Method.bind, Method.pure_eq, Method.pure]
      cases (render cfg this).result <;> rfl
    have hevents : (Lifecycle.step cfg .rendered this).events = (render cfg this).events := by
      simp only [Lifecycle.step, Method.bind_eq, Method.bind, Method.pure_eq, Method.pure]
      cases (render cfg this).result <;> simp
    rw [hstate, hevents]
    exact ⟨h1.trans hsub, h2⟩
  | committed =>
    obtain ⟨h1, h2⟩ := componentDidUpdate_never_subscribes this
    simp only [Lifecycle.step]
    exact ⟨h1.trans hsub, h2⟩
  | willUnmount =>
    simp only [Lifecycle.step]
    rw [componentWillUnmount_eq, hsub]
    exact ⟨rfl, by simp⟩

/-- On an instance without a Subscription, of a class with `shouldHandleStateChanges`
false, no sequence of steps creates or connects a Subscription. -/
theorem lifecycle_never_subscribes (cfg : Config) (steps : List Lifecycle)
    (hcfg : cfg.options.shouldHandleStateChanges = false) :
    ∀ this : Connect, this.subscription = none →
      ∀ ev ∈ lifecycleEvents cfg steps this,
        ev.isTrySubscribe = false ∧ ev.isNewSubscription = false := by
  induction steps with
  | nil =>
    intro this _ ev hev
    simp [lifecycleEvents] at hev
  | cons l rest ih =>
    intro this hsub ev hev
    obtain ⟨h1, h2⟩ := step_never_subscribes cfg l this hcfg hsub
    simp only [lifecycleEvents] at hev
    rcases List.mem_append.mp hev with h | h
    · exact h2 ev h
    · exact ih _ h1 ev h

/-- The constructor of a class with `shouldHandleStateChanges` false creates no
Subscription, and the instance it returns has none. -/
theorem constructor_without_subscription (cfg : Config) (w : World) (fresh : Nat)
    (props : Props) (context : Context)
    (hcfg : cfg.options.shouldHandleStateChanges = false) :
    (∀ ev ∈ (Connect.constructor cfg w fresh props context ()).events,
        ev.isTrySubscribe = false ∧ ev.isNewSubscription = false) ∧
      ∀ this : Connect,
        (Connect.constructor cfg w fresh props context ()).result = .ok this →
        this.subscription = none := by
  cases hstore : (match props.store with
    | some s => some s
    | none => context.store) with
  | none =>
    have hp : props.store = none := by
      cases h : props.store with
      | none => rfl
      | some s => rw [h] at hstore; simp at hstore
    have hc : context.store = none := by
      rw [hp] at hstore; exact hstore
    rw [constructor_without_store cfg w fresh props context hp hc]
    simp
  | some store =>
    rw [constructor_with_store cfg w fresh props context store hstore]
    cases hf : cfg.selectorFactory store cfg.options with
    | error e => simp [Event.isTrySubscribe, Event.isNewSubscription]
    | ok sourceSelector =>
      dsimp only
      refine ⟨?_, ?_⟩
      · intro ev hev
        simp only [hcfg, if_true, List.append_nil, List.mem_cons] at hev
        rcases hev with h | h
        · rw [h]; exact ⟨rfl, rfl⟩
        · exact callRun_never_subscribes w props _ ev h
      · intro this hthis
        simp only [Except.ok.injEq] at hthis
        rw [← hthis]
        simp [hcfg]

/-- C11 as stated fails: `connect(undefined, undefined, undefined,
{ shouldHandleStateChanges: true })` hands `connectAdvanced` an options object whose
`shouldHandleStateChanges` is true, and an instance of the resulting component creates its
Subscription in the constructor and connects it in `componentDidMount`. -/
theorem connect_extraOptions_override_subscribes :
    JsArg.truthy (.value .undefined) = false ∧
      (connectHOCOptions sampleCreateConnect (.value .undefined) (.value .undefined)
        (.value .undefined) forceStateChanges).shouldHandleStateChanges = some true ∧
      ∃ cfg : Config,
        connect sampleCreateConnect (.value .undefined) (.value .undefined)
            (.value .undefined) forceStateChanges sampleComponent = .ok cfg ∧
          (Connect.constructor cfg worldOne 4 plainProps providerContext ()).result =
            .ok sampleConnect ∧
          (Connect.constructor cfg worldOne 4 plainProps
            providerContext ()).events.countP Event.isNewSubscription = 1 ∧
          (componentDidMount cfg worldOne sampleConnect).events.countP
            Event.isTrySubscribe = 1 :=
  ⟨rfl, rfl, _, rfl, rfl, by decide, by decide⟩

/-- C11 (amended): when `mapStateToProps` is falsy and the options argument of `connect`
has no `shouldHandleStateChanges` entry of its own, the options object that `connect` hands
to `connectHOC` has `shouldHandleStateChanges` false; the component class that
`connectAdvanced` builds from that object has `shouldHandleStateChanges` false, its
constructor creates no Subscription, the instance has none, and no sequence of lifecycle
steps and notifications creates or connects one. -/
theorem connect_without_mapStateToProps {ρ : Type} (cc : CreateConnect ρ)
    (mapStateToProps mapDispatchToProps mergeProps : JsArg) (options : ConnectOptions)
    (hfalsy : mapStateToProps.truthy = false)
    (hentry : options.extraOptions.shouldHandleStateChanges = none) :
    (connectHOCOptions cc mapStateToProps mapDispatchToProps mergeProps
        options).shouldHandleStateChanges = some false ∧
      ∀ (version : Nat) (component : ComponentArg) (cfg : Config),
        connectAdvanced cc.selectorFactory
            (connectHOCOptions cc mapStateToProps mapDispatchToProps mergeProps options)
            version component = .ok cfg →
        cfg.options.shouldHandleStateChanges = false ∧
          ∀ (w : World) (fresh : Nat) (props : Props) (context : Context),
            (Connect.constructor cfg w fresh props context ()).events.countP
                Event.isNewSubscription = 0 ∧
              ∀ this : Connect,
                (Connect.constructor cfg w fresh props context ()).result = .ok this →
                this.subscription = none ∧
                  ∀ steps : List Lifecycle,
                    (lifecycleEvents cfg steps this).countP Event.isTrySubscribe = 0 ∧
                      (lifecycleEvents cfg steps this).countP Event.isNewSubscription = 0 := by
  have hhanded : (connectHOCOptions cc mapStateToProps mapDispatchToProps mergeProps
      options).shouldHandleStateChanges = some false := by
    simp [connectHOCOptions, hentry, hfalsy]
  refine ⟨hhanded, ?_⟩
  intro version component cfg hcfg
  have hfalse : cfg.options.shouldHandleStateChanges = false := by
    cases component with
    | notAFunction json => simp [connectAdvanced] at hcfg
    | component displayName name =>
      simp only [connectAdvanced, Except.ok.injEq] at hcfg
      rw [← hcfg]
      simp [hhanded]
  refine ⟨hfalse, ?_⟩
  intro w fresh props context
  obtain ⟨hevents, hnone⟩ := constructor_without_subscription cfg w fresh props context hfalse
  refine ⟨?_, ?_⟩
  · rw [List.countP_eq_zero]
    intro ev hev
    simp [(hevents ev hev).2]
  · intro this hthis
    refine ⟨hnone this hthis, ?_⟩
    intro steps
    have hl := lifecycle_never_subscribes cfg steps hfalse this (hnone this hthis)
    constructor
    · rw [List.countP_eq_zero]
      intro ev hev
      simp [(hl ev hev).1]
    · rw [List.countP_eq_zero]
      intro ev hev
      simp [(hl ev hev).2]

/-- Witness of C11 (amended): `connect()` without arguments, applied to the sample
component: the options object has `shouldHandleStateChanges` false and `componentDidMount`
of a constructed instance connects nothing. -/
theorem connect_without_mapStateToProps_witness :
    (connectHOCOptions sampleCreateConnect (.value .undefined) (.value .undefined)
        (.value .undefined) noConnectOptions).shouldHandleStateChanges = some false ∧
      ∃ cfg : Config,
        connect sampleCreateConnect (.value .undefined) (.value .undefined)
            (.value .undefined) noConnectOptions sampleComponent = .ok cfg ∧
          cfg.options.shouldHandleStateChanges = false :=
  ⟨(connect_without_mapStateToProps sampleCreateConnect (.value .undefined)
      (.value .undefined) (.value .undefined) noConnectOptions rfl rfl).1,
    _, rfl,
    ((connect_without_mapStateToProps sampleCreateConnect (.value .undefined)
      (.value .undefined) (.value .undefined) noConnectOptions rfl rfl).2 0 sampleComponent
      _ rfl).1⟩

end ReactRedux
